import Mathlib

/-!
# Verification of the regcensus-api-python client against its specification

Shallow embedding of `regcensus/api.py` and `regcensus/cache.py`.

Conventions used throughout:
* Python runtime values flowing through `get_values` are modelled by `PyVal`
  (None / int / str / bool / list).  Machine floats appear only inside
  `reading_time`; they are modelled by exact rationals (`ℚ`), with Python's
  `int(...)` truncation modelled by `pyInt`.
* Side effects (console prints, HTTP requests, CSV files) are recorded in an
  explicit `Trace`; early `return` statements and uncaught Python exceptions
  are modelled with an `Except`-style outcome.
* The network is an explicit deterministic `Oracle` giving, for each request
  URL, the parsed JSON payload that `requests.get(url).json()` would produce.
-/

/-! ## Python-style strings of numbers (`str(int(...))`) -/

/-- The decimal digit character for `d % 10`-style values (`d ≥ 9` gives `'9'`;
only `d < 10` is ever used). -/
def digitChar (d : ℕ) : Char :=
  match d with
  | 0 => '0' | 1 => '1' | 2 => '2' | 3 => '3' | 4 => '4'
  | 5 => '5' | 6 => '6' | 7 => '7' | 8 => '8' | _ => '9'

/-- Decimal digit list of a natural number, most significant digit first,
as produced by Python's `str` on a nonnegative `int`.  The recursion is
bounded by an explicit fuel (the number itself), which keeps the definition
structurally recursive and hence computable inside the kernel; `n / 10`
shrinks strictly, so `n` steps always suffice. -/
def natCharsAux : ℕ → ℕ → List Char
  | 0, n => [digitChar n]
  | fuel + 1, n =>
    if n < 10 then [digitChar n]
    else natCharsAux fuel (n / 10) ++ [digitChar (n % 10)]

def natChars (n : ℕ) : List Char := natCharsAux n n

/-- Python `str` of an integer. -/
def pyStr (n : ℤ) : String :=
  if n < 0 then ⟨'-' :: natChars (-n).toNat⟩ else ⟨natChars n.toNat⟩

theorem digitChar_isDigit (d : ℕ) : (digitChar d).isDigit = true := by
  unfold digitChar
  split <;> decide

theorem natCharsAux_ne_nil (fuel n : ℕ) : natCharsAux fuel n ≠ [] := by
  cases fuel with
  | zero => simp [natCharsAux]
  | succ f =>
    unfold natCharsAux
    split <;> simp

theorem natChars_ne_nil (n : ℕ) : natChars n ≠ [] := natCharsAux_ne_nil n n

theorem natCharsAux_digits (fuel : ℕ) :
    ∀ n, ∀ c ∈ natCharsAux fuel n, c.isDigit = true := by
  induction fuel with
  | zero =>
    intro n c hc
    simp only [natCharsAux, List.mem_singleton] at hc
    subst hc
    exact digitChar_isDigit n
  | succ f ih =>
    intro n c hc
    unfold natCharsAux at hc
    split at hc
    · simp only [List.mem_singleton] at hc
      subst hc
      exact digitChar_isDigit n
    · rcases List.mem_append.mp hc with h | h
      · exact ih (n / 10) c h
      · simp only [List.mem_singleton] at h
        subst h
        exact digitChar_isDigit (n % 10)

theorem natChars_digits (n : ℕ) : ∀ c ∈ natChars n, c.isDigit = true :=
  natCharsAux_digits n n

theorem natChars_head_isDigit (n : ℕ) :
    ∃ c t, natChars n = c :: t ∧ c.isDigit = true := by
  rcases h : natChars n with _ | ⟨c, t⟩
  · exact absurd h (natChars_ne_nil n)
  · exact ⟨c, t, rfl, natChars_digits n c (h ▸ List.mem_cons_self c t)⟩

theorem pyStr_nonneg_digits (n : ℤ) (h : 0 ≤ n) :
    ∀ c ∈ (pyStr n).data, c.isDigit = true := by
  unfold pyStr
  rw [if_neg (by omega)]
  exact natChars_digits n.toNat

theorem isDigit_ne (c x : Char) (hc : c.isDigit = true) (hx : x.isDigit = false) :
    c ≠ x := by
  intro h
  rw [h, hx] at hc
  exact Bool.false_ne_true hc

/-! ## Python `str.replace` and `str.strip` on character lists -/

/-- Python `str.replace`: replace all non-overlapping occurrences of `pat`
left-to-right (the empty pattern never fires here; all patterns used by the
source are nonempty words). -/
def replList (pat rep : List Char) : List Char → List Char
  | [] => []
  | c :: rest =>
    if pat ≠ [] ∧ pat.isPrefixOf (c :: rest) then
      rep ++ replList pat rep ((c :: rest).drop pat.length)
    else
      c :: replList pat rep rest
  termination_by l => l.length
  decreasing_by
    · rename_i h
      have hp : 0 < pat.length := List.length_pos.mpr h.1
      simp only [List.length_drop, List.length_cons]
      omega
    · simp

/-- Python `s.replace(pat, rep)` on `String`s. -/
def pyReplace (s pat rep : String) : String :=
  ⟨replList pat.data rep.data s.data⟩

/-- If the head character of the pattern appears nowhere in `xs`, the
replacement scanner walks over `xs` untouched. -/
theorem replList_no_head (p : Char) (pr rep : List Char) (xs l : List Char)
    (hx : ∀ c ∈ xs, c ≠ p) :
    replList (p :: pr) rep (xs ++ l) = xs ++ replList (p :: pr) rep l := by
  induction xs with
  | nil => simp
  | cons c rest ih =>
    have hc : c ≠ p := hx c (List.mem_cons_self c rest)
    rw [List.cons_append, replList]
    rw [if_neg]
    · rw [ih (fun d hd => hx d (List.mem_cons_of_mem c hd))]
      simp
    · intro ⟨_, hpre⟩
      rw [List.isPrefixOf] at hpre
      simp only [Bool.and_eq_true, beq_iff_eq] at hpre
      exact hc hpre.1.symm

/-- A successful match at the head replaces the pattern occurrence. -/
theorem replList_head_match (pat rep l : List Char) (h : pat ≠ []) :
    replList pat rep (pat ++ l) = rep ++ replList pat rep l := by
  rcases pat with _ | ⟨p, pr⟩
  · exact absurd rfl h
  · rw [List.cons_append, replList, if_pos]
    · congr 1
      simp
    · refine ⟨by simp, ?_⟩
      rw [← List.cons_append]
      exact List.isPrefixOf_iff_prefix.mpr (List.prefix_append _ _)

/-- Characters stripped by Python's `text.strip(', ')`. -/
def stripSet : List Char := [',', ' ']

/-- Python `text.strip(', ')`. -/
def pyStrip (s : String) : String :=
  ⟨((s.data.dropWhile (· ∈ stripSet)).reverse.dropWhile (· ∈ stripSet)).reverse⟩

theorem stripList_id (l : List Char)
    (h1 : ∀ c, l.head? = some c → c ∉ stripSet)
    (h2 : ∀ c, l.getLast? = some c → c ∉ stripSet) :
    ((l.dropWhile (· ∈ stripSet)).reverse.dropWhile (· ∈ stripSet)).reverse = l := by
  rcases l with _ | ⟨c, t⟩
  · simp
  · have hc : c ∉ stripSet := h1 c rfl
    rw [List.dropWhile_cons, if_neg (by simpa using hc)]
    rcases hl : (c :: t).getLast? with _ | d
    · simp at hl
    · have hdl : d ∉ stripSet := h2 d hl
      obtain ⟨init, hinit⟩ : ∃ init, c :: t = init ++ [d] := by
        rcases List.eq_nil_or_concat (c :: t) with h | ⟨i, x, hix⟩
        · simp at h
        · refine ⟨i, ?_⟩
          rw [hix] at hl ⊢
          rw [List.concat_eq_append, List.getLast?_concat] at hl
          cases hl
          rw [List.concat_eq_append]
      rw [hinit, List.reverse_append, List.reverse_singleton, List.singleton_append,
        List.dropWhile_cons, if_neg (by simpa using hdl)]
      simp

theorem pyStrip_id (s : String)
    (h1 : ∀ c, s.data.head? = some c → c ∉ stripSet)
    (h2 : ∀ c, s.data.getLast? = some c → c ∉ stripSet) :
    pyStrip s = s := by
  obtain ⟨l⟩ := s
  exact congrArg String.mk (stripList_id l h1 h2)

/-! ## `reading_time` (api.py lines 684-719)

Python floats are modelled by exact rationals; `int(...)` is truncation
toward zero (`pyInt`).  All values arising for a nonnegative word count are
nonnegative, where truncation agrees with `⌊·⌋`. -/

/-- Python `int()` applied to a float/rational: truncation toward zero. -/
def pyInt (q : ℚ) : ℤ :=
  if q < 0 then -⌊-q⌋ else ⌊q⌋

theorem pyInt_of_nonneg (q : ℚ) (h : 0 ≤ q) : pyInt q = ⌊q⌋ := by
  unfold pyInt
  rw [if_neg (not_lt.mpr h)]

theorem pyInt_nonneg (q : ℚ) (h : 0 ≤ q) : 0 ≤ pyInt q := by
  rw [pyInt_of_nonneg q h]
  exact Int.floor_nonneg.mpr h

/-- One unit block of `reading_time`:
`text += str(int(n)) + ' <unit>, '` followed by
`if int(n) > 1: text = text.replace('<unit>', '<unit>s')`. -/
def rtBlock (text : String) (n : ℤ) (unit : String) : String :=
  let t := text ++ pyStr n ++ " " ++ unit ++ ", "
  if 1 < n then pyReplace t unit (unit ++ "s") else t

/-- The text-building tail of `reading_time` (lines 690-719) depends only on
the five truncated unit counts `int(years) .. int(minutes)`; it is factored
here into one definition per accumulated `text` state.
`rtT1` is `text` after the years block (starting from `text = ''`). -/
def rtT1 (Y : ℤ) : String :=
  if Y ≠ 0 then rtBlock "" Y "year" else ""

/-- `text` after the weeks block. -/
def rtT2 (Y W : ℤ) : String :=
  if W ≠ 0 then rtBlock (rtT1 Y) W "week" else rtT1 Y

/-- `text` after the days block. -/
def rtT3 (Y W D : ℤ) : String :=
  if D ≠ 0 then rtBlock (rtT2 Y W) D "day" else rtT2 Y W

/-- `text` after the hours block (`if int(hours) and not int(years)`). -/
def rtT4 (Y W D H : ℤ) : String :=
  if H ≠ 0 ∧ Y = 0 then rtBlock (rtT3 Y W D) H "hour" else rtT3 Y W D

/-- `text` after the minutes block
(`if int(minutes) and not int(years) and not int(weeks)`); the minutes block
appends `str(int(minutes)) + ' minute'` with no trailing `", "`. -/
def rtT5 (Y W D H M : ℤ) : String :=
  if M ≠ 0 ∧ Y = 0 ∧ W = 0 then
    (if 1 < M then
        pyReplace (rtT4 Y W D H ++ pyStr M ++ " minute") "minute" "minutes"
      else rtT4 Y W D H ++ pyStr M ++ " minute")
  else rtT4 Y W D H

/-- `return text.strip(', ') if text else 'Less than a minute'`. -/
def rtText (Y W D H M : ℤ) : String :=
  if rtT5 Y W D H M ≠ "" then pyStrip (rtT5 Y W D H M) else "Less than a minute"

/-- `reading_time` from api.py: word count to elapsed working-time string,
with the source's default arguments `workday=8, workweek=5, workyear=50`. -/
def reading_time (words : ℚ) (workday : ℚ := 8) (workweek : ℚ := 5)
    (workyear : ℚ := 50) : String :=
  let years : ℚ := words / 36000000
  let weeks : ℚ := (years - pyInt years) * workyear
  let days : ℚ := (weeks - pyInt weeks) * workweek
  let hours : ℚ := (days - pyInt days) * workday
  let minutes : ℚ := (hours - pyInt hours) * 60
  rtText (pyInt years) (pyInt weeks) (pyInt days) (pyInt hours) (pyInt minutes)

/-- One rendered unit as the spec describes it: the integer count, a space,
the unit name, and a trailing "s" exactly when the count exceeds one. -/
def plural (n : ℤ) (unit : String) : String :=
  pyStr n ++ " " ++ unit ++ (if 1 < n then "s" else "")

/-- Comma-space join of rendered units (the claim-side rendering). -/
def joinComma : List String → String
  | [] => ""
  | [x] => x
  | x :: rest => x ++ ", " ++ joinComma rest

def rtUnits1 (Y : ℤ) : List (ℤ × String) :=
  if Y ≠ 0 then [(Y, "year")] else []

def rtUnits2 (Y W : ℤ) : List (ℤ × String) :=
  rtUnits1 Y ++ (if W ≠ 0 then [(W, "week")] else [])

def rtUnits3 (Y W D : ℤ) : List (ℤ × String) :=
  rtUnits2 Y W ++ (if D ≠ 0 then [(D, "day")] else [])

def rtUnits4 (Y W D H : ℤ) : List (ℤ × String) :=
  rtUnits3 Y W D ++ (if H ≠ 0 ∧ Y = 0 then [(H, "hour")] else [])

/-- The emitted units, in order, as the claim describes them: years, weeks
and days whenever nonzero, hours only while years is zero, minutes only
while years and weeks are zero. -/
def rtUnits (Y W D H M : ℤ) : List (ℤ × String) :=
  rtUnits4 Y W D H ++ (if M ≠ 0 ∧ Y = 0 ∧ W = 0 then [(M, "minute")] else [])

/-- `reading_time` as claim C4 words it: divide the word count by the fixed
words-per-year constant, cascade the fractional remainders through
weeks/days/hours/minutes with multipliers 50, 5, 8, 60 truncating at each
step, emit years/weeks/days always when nonzero, hours only when years is
zero, minutes only when years and weeks are zero, pluralize with a trailing
"s" exactly when a count exceeds one, and fall back to a fixed string when
every unit truncates to zero. -/
def reading_time_spec (words : ℚ) : String :=
  let yearsQ : ℚ := words / 36000000
  let years : ℤ := pyInt yearsQ
  let weeksQ : ℚ := (yearsQ - years) * 50
  let weeks : ℤ := pyInt weeksQ
  let daysQ : ℚ := (weeksQ - weeks) * 5
  let days : ℤ := pyInt daysQ
  let hoursQ : ℚ := (daysQ - days) * 8
  let hours : ℤ := pyInt hoursQ
  let minutesQ : ℚ := (hoursQ - hours) * 60
  let minutes : ℤ := pyInt minutesQ
  if years = 0 ∧ weeks = 0 ∧ days = 0 ∧ hours = 0 ∧ minutes = 0 then
    "Less than a minute"
  else
    joinComma ((rtUnits years weeks days hours minutes).map fun p => plural p.1 p.2)

/-! ### Machinery for the `reading_time` refinement proof -/

/-- The text accumulated by the source's unit blocks: each rendered unit
followed by `", "`. -/
def blocksText : List (ℤ × String) → String
  | [] => ""
  | p :: rest => (plural p.1 p.2 ++ ", ") ++ blocksText rest

theorem strData_append (a b : String) : (a ++ b).data = a.data ++ b.data := rfl

theorem strAppend_assoc (a b c : String) : a ++ b ++ c = a ++ (b ++ c) :=
  String.ext (List.append_assoc a.data b.data c.data)

theorem blocksText_append (us vs : List (ℤ × String)) :
    blocksText (us ++ vs) = blocksText us ++ blocksText vs := by
  induction us with
  | nil =>
    apply String.ext
    rw [List.nil_append, blocksText, strData_append]
    rfl
  | cons p rest ih =>
    rw [List.cons_append, blocksText, ih, blocksText]
    rw [strAppend_assoc, strAppend_assoc, strAppend_assoc]

theorem plural_data (n : ℤ) (u : String) :
    (plural n u).data
      = (pyStr n).data ++ [' '] ++ u.data ++ (if 1 < n then ['s'] else []) := by
  unfold plural
  split
  · rfl
  · rfl

theorem plural_ne_nil (n : ℤ) (u : String) : (plural n u).data ≠ [] := by
  rw [plural_data]
  intro h
  have := congrArg List.length h
  simp at this

theorem plural_head (n : ℤ) (u : String) (hn : 0 ≤ n) :
    ∃ c t, (plural n u).data = c :: t ∧ c.isDigit = true := by
  obtain ⟨c, t, hct, hc⟩ := natChars_head_isDigit n.toNat
  refine ⟨c, t ++ [' '] ++ u.data ++ (if 1 < n then ['s'] else []), ?_, hc⟩
  rw [plural_data]
  have hdat : (pyStr n).data = natChars n.toNat := by
    unfold pyStr
    rw [if_neg (by omega)]
  rw [hdat, hct]
  simp

theorem plural_chars (n : ℤ) (u : String) (hn : 0 ≤ n) :
    ∀ c ∈ (plural n u).data,
      c.isDigit = true ∨ c = ' ' ∨ c = 's' ∨ c ∈ u.data := by
  rw [plural_data]
  intro c hc
  rcases List.mem_append.mp hc with h | h
  · rcases List.mem_append.mp h with h2 | h2
    · rcases List.mem_append.mp h2 with h3 | h3
      · exact Or.inl (pyStr_nonneg_digits n hn c h3)
      · simp only [List.mem_singleton] at h3
        exact Or.inr (Or.inl h3)
    · exact Or.inr (Or.inr (Or.inr h2))
  · split at h
    · simp only [List.mem_singleton] at h
      exact Or.inr (Or.inr (Or.inl h))
    · simp at h

theorem blocksText_chars (us : List (ℤ × String)) (hn : ∀ p ∈ us, 0 ≤ p.1) :
    ∀ c ∈ (blocksText us).data,
      c.isDigit = true ∨ c = ' ' ∨ c = 's' ∨ c = ',' ∨ ∃ p ∈ us, c ∈ (p.2 : String).data := by
  induction us with
  | nil => simp [blocksText]
  | cons p rest ih =>
    intro c hc
    rw [blocksText, strData_append, strData_append] at hc
    rcases List.mem_append.mp hc with h | h
    · rcases List.mem_append.mp h with h2 | h2
      · rcases plural_chars p.1 p.2 (hn p (List.mem_cons_self p rest)) c h2 with
          h3 | h3 | h3 | h3
        · exact Or.inl h3
        · exact Or.inr (Or.inl h3)
        · exact Or.inr (Or.inr (Or.inl h3))
        · exact Or.inr (Or.inr (Or.inr (Or.inr ⟨p, List.mem_cons_self p rest, h3⟩)))
      · have h2b : c = ',' ∨ c = ' ' := by
          have hmem : c ∈ ([',', ' '] : List Char) := h2
          simpa using hmem
        rcases h2b with h3 | h3
        · exact Or.inr (Or.inr (Or.inr (Or.inl h3)))
        · exact Or.inr (Or.inl h3)
    · rcases ih (fun q hq => hn q (List.mem_cons_of_mem p hq)) c h with
        h3 | h3 | h3 | h3 | ⟨q, hq, hcq⟩
      · exact Or.inl h3
      · exact Or.inr (Or.inl h3)
      · exact Or.inr (Or.inr (Or.inl h3))
      · exact Or.inr (Or.inr (Or.inr (Or.inl h3)))
      · exact Or.inr (Or.inr (Or.inr (Or.inr ⟨q, List.mem_cons_of_mem p hq, hcq⟩)))

/-- Freshness: a non-digit letter that is none of `' '`, `'s'`, `','` and does
not occur in any earlier unit word does not occur in the accumulated text. -/
theorem blocksText_fresh (us : List (ℤ × String)) (x : Char)
    (hxd : x.isDigit = false) (hxs : x ≠ ' ' ∧ x ≠ 's' ∧ x ≠ ',')
    (hxu : ∀ p ∈ us, x ∉ (p.2 : String).data)
    (hn : ∀ p ∈ us, 0 ≤ p.1) :
    ∀ c ∈ (blocksText us).data, c ≠ x := by
  intro c hc
  rcases blocksText_chars us hn c hc with h | h | h | h | ⟨p, hp, hcp⟩
  · exact isDigit_ne c x h hxd
  · rw [h]; exact fun he => hxs.1 he.symm
  · rw [h]; exact fun he => hxs.2.1 he.symm
  · rw [h]; exact fun he => hxs.2.2 he.symm
  · intro he
    exact hxu p hp (he ▸ hcp)

theorem strAppend_empty (a : String) : a ++ "" = a := by
  apply String.ext
  rw [strData_append]
  simp [String.data]

theorem strEmpty_append (a : String) : "" ++ a = a := by
  apply String.ext
  rw [strData_append]
  rfl

theorem replList_nil (pat rep : List Char) : replList pat rep [] = [] := by
  rw [replList]

theorem replList_comma_space (p : Char) (pr rep : List Char)
    (hc1 : (',' : Char) ≠ p) (hc2 : (' ' : Char) ≠ p) :
    replList (p :: pr) rep [',', ' '] = [',', ' '] := by
  have h := replList_no_head p pr rep [',', ' '] []
    (by
      intro c hc
      have hor : c = ',' ∨ c = ' ' := by simpa using hc
      rcases hor with h | h <;> rw [h]
      · exact hc1
      · exact hc2)
  simpa [replList_nil] using h

/-- Rewriting one `rtBlock` call into its rendered form: appends the rendered
unit (with the trailing "s" exactly when the count exceeds one) and `", "`,
provided the pattern's head character does not occur in the earlier text. -/
theorem rtBlock_eq (t : String) (n : ℤ) (u : String) (p : Char) (pr : List Char)
    (hu : u.data = p :: pr) (hn : 1 ≤ n) (hp : p.isDigit = false)
    (hc1 : (',' : Char) ≠ p) (hc2 : (' ' : Char) ≠ p)
    (hfresh : ∀ c ∈ t.data, c ≠ p) :
    rtBlock t n u = t ++ plural n u ++ ", " := by
  have hx : ∀ c ∈ t.data ++ (pyStr n).data ++ [' '], c ≠ p := by
    intro c hc
    rcases List.mem_append.mp hc with h | h
    · rcases List.mem_append.mp h with h2 | h2
      · exact hfresh c h2
      · exact isDigit_ne c p (pyStr_nonneg_digits n (by omega) c h2) hp
    · simp only [List.mem_singleton] at h
      rw [h]
      exact hc2
  unfold rtBlock
  by_cases h1 : 1 < n
  · rw [if_pos h1]
    apply String.ext
    show replList u.data (u.data ++ ['s'])
        (t.data ++ (pyStr n).data ++ [' '] ++ u.data ++ [',', ' ']) = _
    rw [strData_append, strData_append, plural_data, if_pos h1, hu]
    rw [List.append_assoc (t.data ++ (pyStr n).data ++ [' ']) (p :: pr) [',', ' ']]
    rw [replList_no_head p pr ((p :: pr) ++ ['s']) _ _ hx]
    rw [replList_head_match (p :: pr) ((p :: pr) ++ ['s']) [',', ' '] (by simp)]
    rw [replList_comma_space p pr ((p :: pr) ++ ['s']) hc1 hc2]
    simp [List.append_assoc]
  · rw [if_neg h1]
    apply String.ext
    show t.data ++ (pyStr n).data ++ [' '] ++ u.data ++ [',', ' '] = _
    rw [strData_append, strData_append, plural_data, if_neg h1]
    simp [List.append_assoc]

/-- The minutes block (`text += str(int(minutes)) + ' minute'` plus the
conditional pluralizing replace; no trailing `", "`). -/
theorem rtMinutes_eq (t : String) (n : ℤ) (hn : 1 ≤ n)
    (hfresh : ∀ c ∈ t.data, c ≠ 'm') :
    (if 1 < n then pyReplace (t ++ pyStr n ++ " minute") "minute" "minutes"
     else t ++ pyStr n ++ " minute") = t ++ plural n "minute" := by
  have hx : ∀ c ∈ t.data ++ (pyStr n).data ++ [' '], c ≠ 'm' := by
    intro c hc
    rcases List.mem_append.mp hc with h | h
    · rcases List.mem_append.mp h with h2 | h2
      · exact hfresh c h2
      · exact isDigit_ne c 'm' (pyStr_nonneg_digits n (by omega) c h2) (by decide)
    · simp only [List.mem_singleton] at h
      rw [h]
      decide
  by_cases h1 : 1 < n
  · rw [if_pos h1]
    apply String.ext
    show replList "minute".data "minutes".data
        (t.data ++ (pyStr n).data ++ (' ' :: "minute".data)) = _
    rw [strData_append, plural_data, if_pos h1]
    have hsplit :
        t.data ++ (pyStr n).data ++ (' ' :: "minute".data)
          = (t.data ++ (pyStr n).data ++ [' ']) ++ ("minute".data ++ []) := by
      simp [List.append_assoc]
    rw [hsplit]
    rw [replList_no_head 'm' "inute".data "minutes".data _ _ hx]
    rw [replList_head_match "minute".data "minutes".data [] (by simp)]
    rw [replList_nil]
    simp [List.append_assoc]
  · rw [if_neg h1]
    apply String.ext
    show t.data ++ (pyStr n).data ++ (' ' :: "minute".data) = _
    rw [strData_append, plural_data, if_neg h1]
    simp [List.append_assoc]

theorem joinComma_concat (xs : List String) (x : String) (hne : xs ≠ []) :
    joinComma (xs ++ [x]) = joinComma xs ++ ", " ++ x := by
  induction xs with
  | nil => exact absurd rfl hne
  | cons a rest ih =>
    cases rest with
    | nil => rfl
    | cons b rest2 =>
      rw [List.cons_append, List.cons_append]
      rw [show joinComma (a :: b :: (rest2 ++ [x]))
            = a ++ ", " ++ joinComma (b :: (rest2 ++ [x])) from rfl]
      rw [← List.cons_append, ih (by simp)]
      rw [show joinComma (a :: b :: rest2) = a ++ ", " ++ joinComma (b :: rest2) from rfl]
      simp [strAppend_assoc]

theorem blocksText_eq_join (us : List (ℤ × String)) (hne : us ≠ []) :
    blocksText us = joinComma (us.map fun q => plural q.1 q.2) ++ ", " := by
  induction us with
  | nil => exact absurd rfl hne
  | cons p rest ih =>
    cases rest with
    | nil =>
      rw [blocksText, blocksText, strAppend_empty]
      rfl
    | cons q rest2 =>
      rw [blocksText, ih (by simp)]
      rw [show joinComma (List.map (fun r => plural r.1 r.2) (p :: q :: rest2))
            = plural p.1 p.2 ++ ", "
              ++ joinComma (List.map (fun r => plural r.1 r.2) (q :: rest2))
          from by rw [List.map_cons, List.map_cons]; rfl]
      simp [strAppend_assoc]

theorem joinComma_head (x : String) (rest : List String) (c : Char) (t : List Char)
    (hx : x.data = c :: t) :
    ∃ t2, (joinComma (x :: rest)).data = c :: t2 := by
  cases rest with
  | nil => exact ⟨t, hx⟩
  | cons b rest2 =>
    refine ⟨t ++ [',', ' '] ++ (joinComma (b :: rest2)).data, ?_⟩
    rw [show joinComma (x :: b :: rest2) = x ++ ", " ++ joinComma (b :: rest2) from rfl]
    rw [strData_append, strData_append, hx]
    simp [List.append_assoc]

theorem joinComma_getLast (xs : List String) (x : String) (hx : x.data ≠ []) :
    (joinComma (xs ++ [x])).data.getLast? = x.data.getLast? := by
  cases xs with
  | nil => rfl
  | cons a rest =>
    rw [joinComma_concat (a :: rest) x (by simp), strData_append]
    exact List.getLast?_append_of_ne_nil _ hx

theorem digit_not_strip (c : Char) (h : c.isDigit = true) : c ∉ stripSet := by
  intro hmem
  have hor : c = ',' ∨ c = ' ' := by simpa [stripSet] using hmem
  rcases hor with he | he <;> rw [he] at h <;> exact absurd h (by decide)

theorem plural_last_not_strip (n : ℤ) (u : String) (hu : u.data ≠ [])
    (hus : ∀ c ∈ u.data, c ∉ stripSet) :
    ∀ c, (plural n u).data.getLast? = some c → c ∉ stripSet := by
  intro c hc
  rw [plural_data] at hc
  by_cases h1 : 1 < n
  · rw [if_pos h1, List.getLast?_append_of_ne_nil _ (by simp)] at hc
    simp only [List.getLast?_singleton, Option.some_inj] at hc
    rw [← hc]
    decide
  · rw [if_neg h1, List.append_nil, List.getLast?_append_of_ne_nil _ hu] at hc
    exact hus c (List.mem_of_mem_getLast? hc)

/-- Stripping the final `", "` from a nonempty comma-joined rendering. -/
theorem pyStrip_append_comma (s : String)
    (hh : ∀ c, s.data.head? = some c → c ∉ stripSet)
    (hl : ∀ c, s.data.getLast? = some c → c ∉ stripSet)
    (hs : s.data ≠ []) :
    pyStrip (s ++ ", ") = s := by
  obtain ⟨c, t, hct⟩ := List.exists_cons_of_ne_nil hs
  have hc : c ∉ stripSet := hh c (by rw [hct]; rfl)
  obtain ⟨d, hd⟩ : ∃ d, s.data.getLast? = some d := by
    rw [hct]
    exact ⟨(c :: t).getLast (by simp), List.getLast?_eq_getLast _ _⟩
  have hdl : d ∉ stripSet := hl d hd
  apply String.ext
  show ((((s ++ ", ").data).dropWhile (· ∈ stripSet)).reverse.dropWhile
      (· ∈ stripSet)).reverse = s.data
  rw [strData_append, hct]
  rw [show (", " : String).data = [',', ' '] from rfl]
  rw [List.cons_append, List.dropWhile_cons, if_neg (by simpa using hc)]
  rw [← List.cons_append, ← hct]
  obtain ⟨init, hinit⟩ : ∃ init, s.data = init ++ [d] := by
    rcases List.eq_nil_or_concat s.data with h | ⟨i, y, hiy⟩
    · exact absurd h hs
    · refine ⟨i, ?_⟩
      rw [hiy] at hd ⊢
      rw [List.concat_eq_append, List.getLast?_concat] at hd
      cases hd
      rw [List.concat_eq_append]
  rw [hinit]
  rw [show (init ++ [d]) ++ [',', ' '] = init ++ [d] ++ [','] ++ [' '] from by
    simp [List.append_assoc]]
  rw [List.reverse_append, List.reverse_append, List.reverse_append]
  simp only [List.reverse_singleton, List.singleton_append]
  rw [List.dropWhile_cons, if_pos (by decide), List.dropWhile_cons, if_pos (by decide)]
  rw [List.dropWhile_cons, if_neg (by simpa using hdl)]
  simp

theorem strNe_empty (s : String) (h : s.data ≠ []) : s ≠ "" := by
  intro he
  exact h (by rw [he])

theorem pyStrip_blocks (us : List (ℤ × String)) (hne : us ≠ [])
    (hcs : ∀ q ∈ us, 1 ≤ q.1)
    (hus : ∀ q ∈ us, (q.2 : String).data ≠ [] ∧ ∀ c ∈ (q.2 : String).data, c ∉ stripSet) :
    pyStrip (blocksText us) = joinComma (us.map fun q => plural q.1 q.2) := by
  rw [blocksText_eq_join us hne]
  rcases us with _ | ⟨p, rest⟩
  · exact absurd rfl hne
  obtain ⟨c, t, hct, hcd⟩ :=
    plural_head p.1 p.2 (by have := hcs p (List.mem_cons_self p rest); omega)
  have hmap : (p :: rest).map (fun q => plural q.1 q.2)
      = plural p.1 p.2 :: rest.map (fun q => plural q.1 q.2) := List.map_cons _ _ _
  obtain ⟨t2, ht2⟩ :=
    joinComma_head (plural p.1 p.2) (rest.map fun q => plural q.1 q.2) c t hct
  rw [hmap]
  apply pyStrip_append_comma
  · intro c' hc'
    rw [ht2] at hc'
    simp only [List.head?_cons, Option.some_inj] at hc'
    rw [← hc']
    exact digit_not_strip c hcd
  · obtain ⟨init, q, hiq⟩ : ∃ init q, p :: rest = init ++ [q] := by
      rcases List.eq_nil_or_concat (p :: rest) with h | ⟨i, y, hiy⟩
      · simp at h
      · exact ⟨i, y, by rw [hiy, List.concat_eq_append]⟩
    intro c' hc'
    have hqmem : q ∈ p :: rest := by rw [hiq]; simp
    have h2q := hus q hqmem
    rw [← hmap, hiq, List.map_append, List.map_singleton] at hc'
    rw [joinComma_getLast _ _ (plural_ne_nil q.1 q.2)] at hc'
    exact plural_last_not_strip q.1 q.2 h2q.1 h2q.2 c' hc'
  · rw [ht2]
    simp

theorem pyStrip_blocks_last (us : List (ℤ × String)) (m : ℤ) (u : String)
    (hm : 1 ≤ m) (hu : u.data ≠ []) (hust : ∀ c ∈ u.data, c ∉ stripSet)
    (hcs : ∀ q ∈ us, 1 ≤ q.1)
    (hus : ∀ q ∈ us, (q.2 : String).data ≠ [] ∧ ∀ c ∈ (q.2 : String).data, c ∉ stripSet) :
    pyStrip (blocksText us ++ plural m u)
      = joinComma ((us ++ [(m, u)]).map fun q => plural q.1 q.2) := by
  rcases us with _ | ⟨p, rest⟩
  · rw [show blocksText [] = "" from rfl, strEmpty_append, List.nil_append,
      List.map_singleton]
    rw [show joinComma [plural m u] = plural m u from rfl]
    apply pyStrip_id
    · intro c hc
      obtain ⟨c0, t0, hct, hcd⟩ := plural_head m u (by omega)
      rw [hct] at hc
      simp only [List.head?_cons, Option.some_inj] at hc
      rw [← hc]
      exact digit_not_strip c0 hcd
    · exact plural_last_not_strip m u hu hust
  · rw [blocksText_eq_join (p :: rest) (by simp), List.map_append,
      List.map_singleton, joinComma_concat _ _ (by simp)]
    apply pyStrip_id
    · intro c' hc'
      obtain ⟨c, t, hct, hcd⟩ :=
        plural_head p.1 p.2 (by have := hcs p (List.mem_cons_self p rest); omega)
      have hmap : (p :: rest).map (fun q => plural q.1 q.2)
          = plural p.1 p.2 :: rest.map (fun q => plural q.1 q.2) := List.map_cons _ _ _
      obtain ⟨t2, ht2⟩ :=
        joinComma_head (plural p.1 p.2) (rest.map fun q => plural q.1 q.2) c t hct
      rw [strData_append, strData_append, hmap, ht2] at hc'
      simp only [List.cons_append, List.head?_cons, Option.some_inj] at hc'
      rw [← hc']
      exact digit_not_strip c hcd
    · intro c' hc'
      rw [strData_append, List.getLast?_append_of_ne_nil _ (plural_ne_nil m u)] at hc'
      exact plural_last_not_strip m u hu hust c' hc'

/-- One source block applied to an already-rendered text. -/
theorem rtBlock_blocks (us : List (ℤ × String)) (n : ℤ) (u : String)
    (p : Char) (pr : List Char)
    (hu : u.data = p :: pr) (hn : 1 ≤ n) (hp : p.isDigit = false)
    (hps : p ≠ ' ' ∧ p ≠ 's' ∧ p ≠ ',')
    (hxu : ∀ q ∈ us, p ∉ (q.2 : String).data)
    (hcs : ∀ q ∈ us, 0 ≤ q.1) :
    rtBlock (blocksText us) n u = blocksText (us ++ [(n, u)]) := by
  rw [rtBlock_eq (blocksText us) n u p pr hu hn hp
      (fun he => hps.2.2 he.symm) (fun he => hps.1 he.symm)
      (blocksText_fresh us p hp hps hxu hcs)]
  rw [blocksText_append]
  rw [show blocksText [(n, u)] = (plural n u ++ ", ") ++ blocksText [] from rfl]
  rw [show blocksText ([] : List (ℤ × String)) = "" from rfl, strAppend_empty,
    strAppend_assoc]

/-- The minutes block applied to an already-rendered text. -/
theorem rtMinutes_blocks (us : List (ℤ × String)) (m : ℤ) (hm : 1 ≤ m)
    (hxu : ∀ q ∈ us, 'm' ∉ (q.2 : String).data)
    (hcs : ∀ q ∈ us, 0 ≤ q.1) :
    (if 1 < m then
        pyReplace (blocksText us ++ pyStr m ++ " minute") "minute" "minutes"
      else blocksText us ++ pyStr m ++ " minute")
      = blocksText us ++ plural m "minute" :=
  rtMinutes_eq (blocksText us) m hm
    (blocksText_fresh us 'm' (by decide) (by decide) hxu hcs)

theorem mem_ite_singleton {α : Type} {c : Prop} [Decidable c] {x q : α}
    (h : q ∈ (if c then [x] else [])) : c ∧ q = x := by
  split at h
  · exact ⟨by assumption, by simpa using h⟩
  · simp at h

theorem ite_singleton_eq_nil {α : Type} {c : Prop} [Decidable c] {x : α}
    (h : (if c then [x] else []) = []) : ¬c := by
  split at h
  · simp at h
  · assumption

/-- Every entry of the first four unit lists has a positive count and one of
the four long-unit names. -/
theorem rtUnits4_mem (Y W D H : ℤ) (hY : 0 ≤ Y) (hW : 0 ≤ W) (hD : 0 ≤ D)
    (hH : 0 ≤ H) :
    ∀ q ∈ rtUnits4 Y W D H, 1 ≤ q.1 ∧
      (q.2 = "year" ∨ q.2 = "week" ∨ q.2 = "day" ∨ q.2 = "hour") := by
  intro q hq
  unfold rtUnits4 rtUnits3 rtUnits2 rtUnits1 at hq
  rcases List.mem_append.mp hq with h | h
  · rcases List.mem_append.mp h with h2 | h2
    · rcases List.mem_append.mp h2 with h3 | h3
      · obtain ⟨hc, he⟩ := mem_ite_singleton h3
        rw [he]
        exact ⟨by omega, Or.inl rfl⟩
      · obtain ⟨hc, he⟩ := mem_ite_singleton h3
        rw [he]
        exact ⟨by omega, Or.inr (Or.inl rfl)⟩
    · obtain ⟨hc, he⟩ := mem_ite_singleton h2
      rw [he]
      exact ⟨by omega, Or.inr (Or.inr (Or.inl rfl))⟩
  · obtain ⟨hc, he⟩ := mem_ite_singleton h
    rw [he]
    exact ⟨by omega, Or.inr (Or.inr (Or.inr rfl))⟩

theorem rtUnits4_counts (Y W D H : ℤ) (hY : 0 ≤ Y) (hW : 0 ≤ W) (hD : 0 ≤ D)
    (hH : 0 ≤ H) : ∀ q ∈ rtUnits4 Y W D H, 1 ≤ q.1 :=
  fun q hq => (rtUnits4_mem Y W D H hY hW hD hH q hq).1

theorem rtUnits4_unitOk (Y W D H : ℤ) (hY : 0 ≤ Y) (hW : 0 ≤ W) (hD : 0 ≤ D)
    (hH : 0 ≤ H) :
    ∀ q ∈ rtUnits4 Y W D H,
      (q.2 : String).data ≠ [] ∧ ∀ c ∈ (q.2 : String).data, c ∉ stripSet := by
  intro q hq
  rcases (rtUnits4_mem Y W D H hY hW hD hH q hq).2 with he | he | he | he <;>
    rw [he] <;> exact ⟨by decide, by decide⟩


theorem rtUnits1_mem (Y : ℤ) : ∀ q ∈ rtUnits1 Y, q.2 = "year" ∧ q.1 = Y := by
  intro q hq
  unfold rtUnits1 at hq
  obtain ⟨_, he⟩ := mem_ite_singleton hq
  rw [he]
  exact ⟨rfl, rfl⟩

theorem rtUnits2_mem (Y W : ℤ) :
    ∀ q ∈ rtUnits2 Y W, (q.2 = "year" ∧ q.1 = Y) ∨ (q.2 = "week" ∧ q.1 = W) := by
  intro q hq
  unfold rtUnits2 at hq
  rcases List.mem_append.mp hq with h | h
  · exact Or.inl (rtUnits1_mem Y q h)
  · obtain ⟨_, he⟩ := mem_ite_singleton h
    rw [he]
    exact Or.inr ⟨rfl, rfl⟩

theorem rtUnits3_mem (Y W D : ℤ) :
    ∀ q ∈ rtUnits3 Y W D,
      (q.2 = "year" ∧ q.1 = Y) ∨ (q.2 = "week" ∧ q.1 = W)
        ∨ (q.2 = "day" ∧ q.1 = D) := by
  intro q hq
  unfold rtUnits3 at hq
  rcases List.mem_append.mp hq with h | h
  · rcases rtUnits2_mem Y W q h with h2 | h2
    · exact Or.inl h2
    · exact Or.inr (Or.inl h2)
  · obtain ⟨_, he⟩ := mem_ite_singleton h
    rw [he]
    exact Or.inr (Or.inr ⟨rfl, rfl⟩)

theorem blocksText_ne_empty (p : ℤ × String) (rest : List (ℤ × String)) :
    blocksText (p :: rest) ≠ "" := by
  apply strNe_empty
  rw [blocksText, strData_append, strData_append]
  intro hnil
  rcases List.append_eq_nil.mp hnil with ⟨h1, _⟩
  rcases List.append_eq_nil.mp h1 with ⟨h2, _⟩
  exact plural_ne_nil p.1 p.2 h2

theorem rtT1_eq (Y : ℤ) (hY : 0 ≤ Y) : rtT1 Y = blocksText (rtUnits1 Y) := by
  unfold rtT1 rtUnits1
  by_cases hY0 : Y = 0
  · rw [if_neg (by omega), if_neg (by omega)]
    rfl
  · rw [if_pos hY0, if_pos hY0]
    rw [show ("" : String) = blocksText [] from rfl]
    exact rtBlock_blocks [] Y "year" 'y' ['e', 'a', 'r'] rfl (by omega) (by decide)
      (by decide) (by simp) (by simp)

theorem rtT2_eq (Y W : ℤ) (hY : 0 ≤ Y) (hW : 0 ≤ W) :
    rtT2 Y W = blocksText (rtUnits2 Y W) := by
  unfold rtT2 rtUnits2
  rw [rtT1_eq Y hY]
  by_cases hW0 : W = 0
  · rw [if_neg (by omega), if_neg (by omega), List.append_nil]
  · rw [if_pos hW0, if_pos hW0]
    refine rtBlock_blocks (rtUnits1 Y) W "week" 'w' ['e', 'e', 'k'] rfl (by omega)
      (by decide) (by decide) ?_ ?_
    · intro q hq
      rw [(rtUnits1_mem Y q hq).1]
      decide
    · intro q hq
      rw [(rtUnits1_mem Y q hq).2]
      exact hY

theorem rtT3_eq (Y W D : ℤ) (hY : 0 ≤ Y) (hW : 0 ≤ W) (hD : 0 ≤ D) :
    rtT3 Y W D = blocksText (rtUnits3 Y W D) := by
  unfold rtT3 rtUnits3
  rw [rtT2_eq Y W hY hW]
  by_cases hD0 : D = 0
  · rw [if_neg (by omega), if_neg (by omega), List.append_nil]
  · rw [if_pos hD0, if_pos hD0]
    refine rtBlock_blocks (rtUnits2 Y W) D "day" 'd' ['a', 'y'] rfl (by omega)
      (by decide) (by decide) ?_ ?_
    · intro q hq
      rcases rtUnits2_mem Y W q hq with ⟨he, _⟩ | ⟨he, _⟩ <;> rw [he] <;> decide
    · intro q hq
      rcases rtUnits2_mem Y W q hq with ⟨_, he⟩ | ⟨_, he⟩ <;> rw [he] <;> assumption

theorem rtT4_eq (Y W D H : ℤ) (hY : 0 ≤ Y) (hW : 0 ≤ W) (hD : 0 ≤ D)
    (hH : 0 ≤ H) : rtT4 Y W D H = blocksText (rtUnits4 Y W D H) := by
  unfold rtT4 rtUnits4
  rw [rtT3_eq Y W D hY hW hD]
  by_cases hc : H ≠ 0 ∧ Y = 0
  · rw [if_pos hc, if_pos hc]
    refine rtBlock_blocks (rtUnits3 Y W D) H "hour" 'h' ['o', 'u', 'r'] rfl
      (by omega) (by decide) (by decide) ?_ ?_
    · intro q hq
      rcases rtUnits3_mem Y W D q hq with ⟨he, _⟩ | ⟨he, _⟩ | ⟨he, _⟩ <;>
        rw [he] <;> decide
    · intro q hq
      rcases rtUnits3_mem Y W D q hq with ⟨_, he⟩ | ⟨_, he⟩ | ⟨_, he⟩ <;>
        rw [he] <;> assumption
  · rw [if_neg hc, if_neg hc, List.append_nil]

theorem rtT5_eq (Y W D H M : ℤ) (hY : 0 ≤ Y) (hW : 0 ≤ W) (hD : 0 ≤ D)
    (hH : 0 ≤ H) (hM : 0 ≤ M) :
    rtT5 Y W D H M
      = if M ≠ 0 ∧ Y = 0 ∧ W = 0 then
          blocksText (rtUnits4 Y W D H) ++ plural M "minute"
        else blocksText (rtUnits4 Y W D H) := by
  unfold rtT5
  rw [rtT4_eq Y W D H hY hW hD hH]
  by_cases hc : M ≠ 0 ∧ Y = 0 ∧ W = 0
  · rw [if_pos hc, if_pos hc]
    refine rtMinutes_blocks (rtUnits4 Y W D H) M (by omega) ?_ ?_
    · intro q hq
      rcases (rtUnits4_mem Y W D H hY hW hD hH q hq).2 with he | he | he | he <;>
        rw [he] <;> decide
    · intro q hq
      have := (rtUnits4_mem Y W D H hY hW hD hH q hq).1
      omega
  · rw [if_neg hc, if_neg hc]

/-- Master rendering lemma: the source's accumulated-text rendering equals
the claim-side rendering of the emitted unit list. -/
theorem rtText_render (Y W D H M : ℤ) (hY : 0 ≤ Y) (hW : 0 ≤ W) (hD : 0 ≤ D)
    (hH : 0 ≤ H) (hM : 0 ≤ M) :
    rtText Y W D H M
      = if Y = 0 ∧ W = 0 ∧ D = 0 ∧ H = 0 ∧ M = 0 then "Less than a minute"
        else joinComma ((rtUnits Y W D H M).map fun q => plural q.1 q.2) := by
  unfold rtText
  rw [rtT5_eq Y W D H M hY hW hD hH hM]
  by_cases hc5 : M ≠ 0 ∧ Y = 0 ∧ W = 0
  · rw [if_pos hc5]
    have hne : blocksText (rtUnits4 Y W D H) ++ plural M "minute" ≠ "" := by
      apply strNe_empty
      rw [strData_append]
      intro hnil
      exact plural_ne_nil M "minute" (List.append_eq_nil.mp hnil).2
    rw [if_pos hne]
    rw [pyStrip_blocks_last (rtUnits4 Y W D H) M "minute" (by omega) (by decide)
      (by decide) (rtUnits4_counts Y W D H hY hW hD hH)
      (rtUnits4_unitOk Y W D H hY hW hD hH)]
    rw [if_neg (by intro hz; exact hc5.1 hz.2.2.2.2)]
    unfold rtUnits
    rw [if_pos hc5]
  · rw [if_neg hc5]
    by_cases h4 : rtUnits4 Y W D H = []
    · rw [h4]
      rw [show blocksText [] = "" from rfl, if_neg (by simp)]
      have hzero : Y = 0 ∧ W = 0 ∧ D = 0 ∧ H = 0 ∧ M = 0 := by
        unfold rtUnits4 rtUnits3 rtUnits2 rtUnits1 at h4
        rcases List.append_eq_nil.mp h4 with ⟨h123, hH4⟩
        rcases List.append_eq_nil.mp h123 with ⟨h12, hD3⟩
        rcases List.append_eq_nil.mp h12 with ⟨h1, hW2⟩
        have hY0 : Y = 0 := by have := ite_singleton_eq_nil h1; omega
        have hW0 : W = 0 := by have := ite_singleton_eq_nil hW2; omega
        have hD0 : D = 0 := by have := ite_singleton_eq_nil hD3; omega
        have hH0 : H = 0 := by
          have hneg := ite_singleton_eq_nil hH4
          by_contra hne2
          exact hneg ⟨hne2, hY0⟩
        have hM0 : M = 0 := by
          by_contra hne2
          exact hc5 ⟨hne2, hY0, hW0⟩
        exact ⟨hY0, hW0, hD0, hH0, hM0⟩
      rw [if_pos hzero]
    · have hne : blocksText (rtUnits4 Y W D H) ≠ "" := by
        obtain ⟨p, rest, hpr⟩ := List.exists_cons_of_ne_nil h4
        rw [hpr]
        exact blocksText_ne_empty p rest
      rw [if_pos hne]
      rw [pyStrip_blocks (rtUnits4 Y W D H) h4
        (rtUnits4_counts Y W D H hY hW hD hH)
        (rtUnits4_unitOk Y W D H hY hW hD hH)]
      have hnz : ¬(Y = 0 ∧ W = 0 ∧ D = 0 ∧ H = 0 ∧ M = 0) := by
        intro hz
        apply h4
        unfold rtUnits4 rtUnits3 rtUnits2 rtUnits1
        rw [hz.1, hz.2.1, hz.2.2.1, hz.2.2.2.1]
        simp
      rw [if_neg hnz]
      unfold rtUnits
      rw [if_neg hc5, List.append_nil]

theorem fract_mul_nonneg (q k : ℚ) (hq : 0 ≤ q) (hk : 0 ≤ k) :
    0 ≤ (q - pyInt q) * k := by
  apply mul_nonneg _ hk
  rw [pyInt_of_nonneg q hq]
  exact sub_nonneg.mpr (Int.floor_le q)

/-- C4: `reading_time` is a pure function of the word count: it divides the
word count by the fixed words-per-year constant (36,000,000), cascades the
fractional remainder of each unit through weeks, days, hours and minutes
with multipliers 50, 5, 8 and 60, truncating to an integer at each step;
hours are omitted whenever years is nonzero and minutes are omitted whenever
years or weeks is nonzero; each emitted unit name gets a trailing "s"
exactly when its integer count exceeds one; and when every unit truncates to
zero the result is the fixed "Less than a minute" string.  Stated as a
refinement: for every nonnegative word count the source function equals the
claim-side rendering `reading_time_spec`. -/
theorem claim_C4 (words : ℚ) (hw : 0 ≤ words) :
    reading_time words = reading_time_spec words := by
  unfold reading_time reading_time_spec
  dsimp only
  have h1 : (0 : ℚ) ≤ words / 36000000 := by positivity
  have h2 : (0 : ℚ) ≤ (words / 36000000 - pyInt (words / 36000000)) * 50 :=
    fract_mul_nonneg _ 50 h1 (by norm_num)
  have h3 := fract_mul_nonneg
    ((words / 36000000 - pyInt (words / 36000000)) * 50) 5 h2 (by norm_num)
  have h4 := fract_mul_nonneg
    (((words / 36000000 - pyInt (words / 36000000)) * 50
      - pyInt ((words / 36000000 - pyInt (words / 36000000)) * 50)) * 5) 8 h3
    (by norm_num)
  have h5 := fract_mul_nonneg
    ((((words / 36000000 - pyInt (words / 36000000)) * 50
      - pyInt ((words / 36000000 - pyInt (words / 36000000)) * 50)) * 5
      - pyInt (((words / 36000000 - pyInt (words / 36000000)) * 50
        - pyInt ((words / 36000000 - pyInt (words / 36000000)) * 50)) * 5)) * 8)
    60 h4 (by norm_num)
  exact rtText_render _ _ _ _ _ (pyInt_nonneg _ h1) (pyInt_nonneg _ h2)
    (pyInt_nonneg _ h3) (pyInt_nonneg _ h4) (pyInt_nonneg _ h5)

/-- Witness for C4 at the concrete word count 37,000,000 (one year plus a
fractional remainder). -/
theorem claim_C4_witness :
    reading_time 37000000 = reading_time_spec 37000000 :=
  claim_C4 37000000 (by norm_num)

/-! ## The memoization cache (cache.py) and sorted lookup dictionaries -/

/-- cache.py `Memoized`: holds the wrapped function and a cache keyed by
`(str(args), str(kwargs))`. -/
structure Memoized (α β : Type) where
  func : α → β
  cache : List ((String × String) × β)

/-- cache.py `Memoized.__call__` (lines 14-24).  `key` is the
`(str(args), str(kwargs))` stringification of the call, `argsHashable`
models `isinstance(args, collections.abc.Hashable)` (positional arguments
always form a tuple, which is hashable, so this is `true` in this client).
Returns the value, the updated cache state, and whether the wrapped
function was invoked. -/
def Memoized.call {α β : Type} (m : Memoized α β) (key : α → String × String)
    (argsHashable : α → Bool) (args : α) : β × Memoized α β × Bool :=
  if argsHashable args = false then
    (m.func args, m, true)
  else
    match m.cache.find? (fun e => e.1 == key args) with
    | some e => (e.2, m, false)
    | none =>
      let v := m.func args
      (v, ⟨m.func, m.cache ++ [(key args, v)]⟩, true)

theorem find?_append_none {α : Type} (l₁ l₂ : List α) (p : α → Bool)
    (h : l₁.find? p = none) : (l₁ ++ l₂).find? p = l₂.find? p := by
  induction l₁ with
  | nil => rfl
  | cons a rest ih =>
    cases hpa : p a
    · simp only [List.cons_append, List.find?_cons, hpa] at h ⊢
      exact ih h
    · simp only [List.find?_cons, hpa] at h
      exact Option.noConfusion h

/-- Python dict update semantics: overwrite in place if the key exists,
else append. -/
def pyDictUpdate {κ β : Type} [BEq κ] (acc : List (κ × β)) (k : κ) (v : β) :
    List (κ × β) :=
  if acc.any (fun e => e.1 == k) then
    acc.map (fun e => if e.1 == k then (k, v) else e)
  else acc ++ [(k, v)]

/-- Python dict built from a sequence of key/value pairs (later pairs
overwrite earlier ones). -/
def pyDictOf {κ β : Type} [BEq κ] : List (κ × β) → List (κ × β) → List (κ × β)
  | acc, [] => acc
  | acc, (k, v) :: rest => pyDictOf (pyDictUpdate acc k v) rest

/-- The order `sorted` uses on dict items: lexicographic on (key, value). -/
def itemLex {κ β : Type} [LinearOrder κ] [LinearOrder β] (a b : κ × β) : Prop :=
  a.1 < b.1 ∨ (a.1 = b.1 ∧ a.2 ≤ b.2)

instance {κ β : Type} [LinearOrder κ] [LinearOrder β] :
    DecidableRel (@itemLex κ β _ _) := by
  intro a b
  unfold itemLex
  infer_instance

instance {κ β : Type} [LinearOrder κ] [LinearOrder β] :
    IsTotal (κ × β) itemLex := by
  constructor
  intro a b
  rcases lt_trichotomy a.1 b.1 with h | h | h
  · exact Or.inl (Or.inl h)
  · rcases le_total a.2 b.2 with h2 | h2
    · exact Or.inl (Or.inr ⟨h, h2⟩)
    · exact Or.inr (Or.inr ⟨h.symm, h2⟩)
  · exact Or.inr (Or.inl h)

instance {κ β : Type} [LinearOrder κ] [LinearOrder β] :
    IsTrans (κ × β) itemLex := by
  constructor
  intro a b c hab hbc
  rcases hab with h | ⟨he, hv⟩
  · rcases hbc with h2 | ⟨he2, _⟩
    · exact Or.inl (h.trans h2)
    · exact Or.inl (he2 ▸ h)
  · rcases hbc with h2 | ⟨he2, hv2⟩
    · exact Or.inl (he ▸ h2)
    · exact Or.inr ⟨he.trans he2, hv.trans hv2⟩

/-- Python `dict(sorted({...}.items()))`: deduplicate with dict semantics,
then sort the items ascending. -/
def pySortedDict {κ β : Type} [BEq κ] [LinearOrder κ] [LinearOrder β]
    (l : List (κ × β)) : List (κ × β) :=
  List.insertionSort itemLex (pyDictOf [] l)

/-- api.py `list_jurisdictions` (lines 565-579), `reverse=False`: build
`{jurisdiction_name: jurisdiction_id}` from the fetched content rows
(modelled as `(name, id)` pairs) and return it sorted.  The network fetch
itself is threaded separately by the caller. -/
def list_jurisdictions_dict (content : List (String × ℤ)) : List (String × ℤ) :=
  pySortedDict content

/-- api.py `list_jurisdictions` with `reverse=True`:
`{jurisdiction_id: jurisdiction_name}`, sorted by the id key. -/
def list_jurisdictions_reverse_dict (content : List (String × ℤ)) :
    List (ℤ × String) :=
  pySortedDict (content.map fun j => (j.2, j.1))

theorem pySortedDict_sorted {κ β : Type} [BEq κ] [LinearOrder κ] [LinearOrder β]
    (l : List (κ × β)) :
    List.Pairwise (fun a b : κ × β => a.1 ≤ b.1) (pySortedDict l) := by
  have h := List.sorted_insertionSort itemLex (pyDictOf ([] : List (κ × β)) l)
  exact h.imp (by
    intro a b hab
    rcases hab with h2 | ⟨h2, _⟩
    · exact le_of_lt h2
    · exact le_of_eq h2)

/-- Memoization: a second call with identical (hashable) arguments returns
the value of the first call, leaves the cache unchanged, and does not invoke
the wrapped function again. -/
theorem Memoized_second_call {α β : Type} (m : Memoized α β)
    (key : α → String × String) (argsHashable : α → Bool) (a : α)
    (hh : argsHashable a = true) :
    (m.call key argsHashable a).2.1.call key argsHashable a
      = ((m.call key argsHashable a).1, (m.call key argsHashable a).2.1, false) := by
  unfold Memoized.call
  rw [if_neg (by simp [hh])]
  cases hfind : m.cache.find? (fun e => e.1 == key a) with
  | some e =>
    simp only [hfind]
    rw [if_neg (by simp [hh])]
    simp [hfind]
  | none =>
    simp only [hfind]
    rw [if_neg (by simp [hh])]
    have h2 : ((m.cache ++ [(key a, m.func a)]).find? (fun e => e.1 == key a))
        = some (key a, m.func a) := by
      rw [find?_append_none m.cache _ _ hfind]
      simp [List.find?_cons]
    simp [h2]

/-! ## Python values and the effect monad for `get_values` (api.py) -/

/-- Python runtime values flowing through `get_values`. -/
inductive PyVal : Type
  | none
  | int (n : ℤ)
  | str (s : String)
  | bool (b : Bool)
  | list (xs : List PyVal)

/-- Comma-only join (Python `",".join(...)`). -/
def commaJoin : List String → String
  | [] => ""
  | [x] => x
  | x :: rest => x ++ "," ++ commaJoin rest

mutual
/-- Python `repr` (used for list elements inside `str(...)`). -/
def PyVal.pyRepr : PyVal → String
  | .none => "None"
  | .int n => pyStr n
  | .str s => "'" ++ s ++ "'"
  | .bool true => "True"
  | .bool false => "False"
  | .list xs => "[" ++ PyVal.reprJoin xs ++ "]"

def PyVal.reprJoin : List PyVal → String
  | [] => ""
  | [x] => x.pyRepr
  | x :: rest => x.pyRepr ++ ", " ++ PyVal.reprJoin rest
end

/-- Python `str(...)`. -/
def PyVal.toStr : PyVal → String
  | .none => "None"
  | .int n => pyStr n
  | .str s => s
  | .bool true => "True"
  | .bool false => "False"
  | .list xs => "[" ++ PyVal.reprJoin xs ++ "]"

/-- Python truthiness. -/
def PyVal.truthy : PyVal → Bool
  | .none => false
  | .int n => n != 0
  | .str s => s != ""
  | .bool b => b
  | .list xs => !xs.isEmpty

mutual
/-- Python `==` on the values that occur here (`True == 1` holds). -/
def PyVal.pyEq : PyVal → PyVal → Bool
  | .none, .none => true
  | .int a, .int b => a == b
  | .int a, .bool b => a == (if b then 1 else 0)
  | .bool a, .int b => (if a then (1 : ℤ) else 0) == b
  | .bool a, .bool b => a == b
  | .str a, .str b => a == b
  | .list a, .list b => PyVal.listEq a b
  | _, _ => false

def PyVal.listEq : List PyVal → List PyVal → Bool
  | [], [] => true
  | a :: as2, b :: bs2 => a.pyEq b && PyVal.listEq as2 bs2
  | _, _ => false
end

/-- `re.search(r'[A-Za-z]', s)` succeeds. -/
def hasAlpha (s : String) : Bool :=
  s.data.any (fun c => c.isAlpha)

/-- `re.match` against `date_format = \d{4}(?:-\d{2}-\d{2})?` matches a
prefix of the string; since the dashed group is optional, the match succeeds
exactly when the string starts with four digits. -/
def date_format_match (s : String) : Bool :=
  (s.data.take 4).length == 4 && (s.data.take 4).all Char.isDigit

/-- Parse the digits of a decimal literal. -/
def parseNat (l : List Char) : Option ℕ :=
  if l ≠ [] ∧ l.all Char.isDigit then
    some (l.foldl (fun a c => a * 10 + (c.toNat - 48)) 0)
  else Option.none

/-- Python `int(...)` on a value: ints pass through, bools become 0/1,
numeric strings are parsed (else ValueError), anything else raises
TypeError. -/
def pyToInt : PyVal → Except String ℤ
  | .int n => .ok n
  | .bool b => .ok (if b then 1 else 0)
  | .str s =>
    (match s.data with
     | '-' :: rest =>
       (match parseNat rest with
        | some n => .ok (-(n : ℤ))
        | Option.none => .error "invalid literal for int()")
     | l =>
       (match parseNat l with
        | some n => .ok ((n : ℤ))
        | Option.none => .error "invalid literal for int()"))
  | .none => .error "int() argument must not be None"
  | .list _ => .error "int() argument must not be a list"

/-- Python `range(a, b)` as a list. -/
def pyRange (a b : ℤ) : List ℤ :=
  (List.range (b - a).toNat).map (fun i : ℕ => a + (i : ℤ))

/-- A row of the flattened JSON table: column name to scalar (rendered as a
string; the scalar payloads are opaque to every claim). -/
abbrev Row := List (String × String)

/-- A flattened JSON table, ordered rows. -/
abbrev Table := List Row

/-- Python `str.split(sep)` with a nonempty separator: scan left to right,
cutting at each non-overlapping occurrence of `sep`.  Fuel-structural (the
input length bounds the number of steps, since each step consumes at least
one character). -/
def pySplitAux (sep : List Char) : ℕ → List Char → List Char → List (List Char)
  | 0, acc, rest => [acc.reverse ++ rest]
  | _ + 1, acc, [] => [acc.reverse]
  | fuel + 1, acc, c :: rest =>
    if sep.isPrefixOf (c :: rest) then
      acc.reverse :: pySplitAux sep fuel [] (List.drop sep.length (c :: rest))
    else
      pySplitAux sep fuel (c :: acc) rest

def pySplit (s sep : String) : List String :=
  (pySplitAux sep.data s.data.length [] s.data).map List.asString

/-- api.py `clean_columns` (lines 661-664): every column name keeps only the
substring after the last occurrence of `"v_"` (Python `c.split('v_')[-1]`). -/
def clean_columns (df : Table) : Table :=
  df.map (fun row => row.map (fun col => (((pySplit col.1 "v_").getLastD ""), col.2)))

/-- Python exceptions that the modelled paths can raise. -/
inductive PyExn : Type
  | keyError (k : String)
  | typeError (msg : String)
  | indexError
  deriving DecidableEq

/-- How a modelled call ends: a value-returning `return`, an uncaught
exception, or exhaustion of the pagination fuel (a modelling artifact for
the unbounded `while` loop). -/
inductive Outcome : Type
  | ret (t : Option Table)
  | raise (e : PyExn)
  | diverge
  deriving DecidableEq

/-- Console prints, HTTP requests, CSV writes, and the set of URLs already
served by a `Memoized` helper during this call. -/
structure Trace where
  prints : List String
  requests : List String
  files : List (String × Table)
  memo : List String
  deriving DecidableEq

/-- Externally observable result of a `get_values` call. -/
structure CallResult where
  prints : List String
  requests : List String
  files : List (String × Table)
  outcome : Outcome
  deriving DecidableEq

/-- The effect monad: state `Trace` plus early exit with an `Outcome`. -/
def GV (α : Type) : Type := Trace → Except Outcome α × Trace

def GV.bindCore {α β : Type} (m : GV α) (f : α → GV β) : GV β := fun t =>
  match m t with
  | (.ok a, t2) => f a t2
  | (.error o, t2) => (.error o, t2)

def GV.pureCore {α : Type} (a : α) : GV α := fun t => (.ok a, t)

instance : Monad GV where
  pure := GV.pureCore
  bind := GV.bindCore

theorem GV_bind_def {α β : Type} (m : GV α) (f : α → GV β) :
    (m >>= f) = GV.bindCore m f := rfl

theorem GV_pure_def {α : Type} (a : α) : (pure a : GV α) = GV.pureCore a := rfl

/-- `print(...)`: append one line to the print trace. -/
def pr (s : String) : GV Unit := fun t =>
  (.ok (), { t with prints := t.prints ++ [s] })

/-- `requests.get(url)`: record the HTTP request. -/
def rawFetch (u : String) : GV Unit := fun t =>
  (.ok (), { t with requests := t.requests ++ [u] })

/-- `.to_csv(path, index=False)`: record the written file. -/
def writeFile (p : String) (tbl : Table) : GV Unit := fun t =>
  (.ok (), { t with files := t.files ++ [(p, tbl)] })

/-- Early exit: a Python `return` or an uncaught exception. -/
def throwOut {α : Type} (o : Outcome) : GV α := fun t => (.error o, t)

/-- Has this URL already been fetched by a `Memoized` helper? -/
def memoCheck (u : String) : GV Bool := fun t => (.ok (t.memo.contains u), t)

/-- Record a URL as served (only successful fetches are memoized). -/
def memoMark (u : String) : GV Unit := fun t =>
  (.ok (), { t with memo := t.memo ++ [u] })

/-- Python `try/except`: run `body`; on an exception selected by `sel`, run
the handler (early `return`s and unselected exceptions pass through). -/
def tryExcept {α : Type} (body : GV α) (sel : PyExn → Bool)
    (handler : PyExn → GV α) : GV α := fun t =>
  match body t with
  | (.error (.raise e), t2) => if sel e then handler e t2 else (.error (.raise e), t2)
  | other => other

def isIndexError : PyExn → Bool
  | .indexError => true
  | _ => false

def isKeyOrTypeError : PyExn → Bool
  | .keyError _ => true
  | .typeError _ => true
  | _ => false

def isTypeErr : PyExn → Bool
  | .typeError _ => true
  | _ => false

/-- One row of the parsed `/datafinder` table, after `get_datafinder`'s
column renames (`series_id → series` etc.).  Endpoint fields are strings,
with `""` for an empty/falsy endpoint. -/
structure DFRow where
  series : ℤ
  year : PyVal
  summary_endpoints : String
  document_endpoints : String
  label_endpoints : String

/-- What `requests.get(url).json()` produced for a values-endpoint call:
either a JSON string whose `json.loads` yields a list of records (flattened
by `json_normalize` into `Table` rows), or a dict error envelope, for which
`json.loads` raises TypeError. -/
inductive JsonResp : Type
  | rows (rs : Table)
  | envelope (fields : List (String × String))

/-- The deterministic network: parsed payloads per request URL.
`datafinder` yields `.error ()` when the datafinder payload is an error
envelope (so parsing it raises TypeError inside `get_datafinder`);
`jurisdictions`, `seriesContent` and `labels` are the parsed content rows of
the metadata endpoints (name/id, series-name/id, label-code/label-id). -/
structure Oracle where
  datafinder : String → Except Unit (List DFRow)
  jurisdictions : List (String × ℤ)
  seriesContent : List (String × ℤ)
  labels : String → List (String × ℤ)
  values : String → JsonResp

/-- api.py line 13. -/
def URL : String := "https://api.quantgov.org"

/-- api.py `get_datafinder` (lines 270-290): fetch and parse the datafinder
table for a jurisdiction/documentType (wrapped in `Memoized`: a repeated
successful call is served from the cache without a request; a parse failure
raises TypeError and is not cached). -/
def get_datafinder (o : Oracle) (jurisdiction documentType : PyVal) :
    GV (List DFRow) := do
  let url :=
    if documentType.truthy then
      URL ++ "/datafinder?jurisdiction=" ++ jurisdiction.toStr
        ++ "&documenttype=" ++ documentType.toStr
    else
      URL ++ "/datafinder?jurisdiction=" ++ jurisdiction.toStr
  let cached ← memoCheck url
  if cached then
    match o.datafinder url with
    | .ok rows => pure rows
    | .error _ => throwOut (.raise (.typeError "the JSON object must be str, not dict"))
  else do
    rawFetch url
    match o.datafinder url with
    | .ok rows => do
        memoMark url
        pure rows
    | .error _ => throwOut (.raise (.typeError "the JSON object must be str, not dict"))

/-- `pandas.DataFrame.to_string(index=False)` on the datafinder table: an
opaque deterministic rendering (its exact layout is immaterial; it is never
one of the diagnostic prompt strings, which is all the claims need). -/
def dfToString (rows : List DFRow) : String :=
  "datafinder table with " ++ pyStr rows.length ++ " rows"

/-- `pprint.pprint` of a name-to-id dictionary. -/
def ppDict (d : List (String × ℤ)) : String :=
  "\x7b" ++ joinComma (d.map fun e => "'" ++ e.1 ++ "': " ++ pyStr e.2) ++ "\x7d"

/-- api.py `jurisdictions_url` (lines 643-645). -/
def jurisdictions_url : String := URL ++ "/jurisdictions/"

/-- api.py `series_url` (lines 624-626). -/
def series_url : String := URL ++ "/dataseries"

/-- api.py `industries_url` (lines 648-658). -/
def industries_url (keyword labellevel labelsource : PyVal) : String :=
  (if keyword.truthy then
    URL ++ "/labels?labellevel=" ++ labellevel.toStr ++ "&keyword=" ++ keyword.toStr
  else
    URL ++ "/labels?labellevel=" ++ labellevel.toStr)
  ++ (if labelsource.truthy then "&labelsource=" ++ labelsource.toStr else "")

/-- api.py `list_jurisdictions` (lines 565-579) with `reverse=False`, as
called from `get_values`: one memoized fetch of the jurisdictions content,
then the sorted name-to-id dictionary. -/
def list_jurisdictions (o : Oracle) : GV (List (String × ℤ)) := do
  let cached ← memoCheck jurisdictions_url
  if cached then
    pure (list_jurisdictions_dict o.jurisdictions)
  else do
    rawFetch jurisdictions_url
    memoMark jurisdictions_url
    pure (list_jurisdictions_dict o.jurisdictions)

/-- api.py `list_series` (lines 473-491) with `reverse=False`: the sorted
series-name-to-id dictionary. -/
def list_series (o : Oracle) : GV (List (String × ℤ)) := do
  let cached ← memoCheck series_url
  if cached then
    pure (pySortedDict o.seriesContent)
  else do
    rawFetch series_url
    memoMark series_url
    pure (pySortedDict o.seriesContent)

/-- api.py `list_industries` (lines 582-621) with `onlyID=True`,
`keyword=None`, `reverse=False`, as called from `get_values`: the sorted
label-code-to-id dictionary for the given level/source. -/
def list_industries_onlyID (o : Oracle) (labellevel labelsource : PyVal) :
    GV (List (String × ℤ)) := do
  let url := industries_url .none labellevel labelsource
  let cached ← memoCheck url
  if cached then
    pure (pySortedDict (o.labels url))
  else do
    rawFetch url
    memoMark url
    pure (pySortedDict (o.labels url))

/-- Pandas `query('series == {series} and year == {year}')` semantics for
one datafinder row: a scalar comparison is elementwise `==`, a list
comparison behaves as membership. -/
def queryMatch (rv : PyVal) (v : PyVal) : Bool :=
  match v with
  | .list xs => xs.any (fun x => rv.pyEq x)
  | x => rv.pyEq x

/-- Python `int(...)` lifted into the effect monad: a conversion failure is
an uncaught exception. -/
def liftInt (v : PyVal) : GV ℤ :=
  match pyToInt v with
  | .ok n => pure n
  | .error m => throwOut (.raise (.typeError m))

/-- api.py `get_endpoint` (lines 293-316): convert list years/series to
ints, query the datafinder table for the matching row, take the summary or
document endpoint (falling back to the label endpoint when falsy).  KeyError
and TypeError yield `None`; an empty selection raises IndexError
(`.values[0]`), which propagates to the caller. -/
def get_endpoint (o : Oracle)
    (series jurisdiction year documentType summary : PyVal) : GV PyVal := do
  let year2 : PyVal ←
    match year with
    | .list ys => do
        let ys2 ← ys.mapM (fun y => do
          let n ← liftInt y
          pure (PyVal.int n))
        pure (PyVal.list ys2)
    | y => pure y
  let series2 : PyVal ←
    match series with
    | .list ss => do
        let ss2 ← ss.mapM (fun s => do
          let n ← liftInt s
          pure (PyVal.int n))
        pure (PyVal.list ss2)
    | s => pure s
  tryExcept
    (do
      let rows ← get_datafinder o jurisdiction documentType
      let ms := rows.filter
        (fun r => queryMatch (PyVal.int r.series) series2 && queryMatch r.year year2)
      match ms with
      | [] => throwOut (.raise .indexError)
      | r :: _ => do
          let endpoint := if summary.truthy then r.summary_endpoints
            else r.document_endpoints
          let endpoint := if endpoint == "" then r.label_endpoints else endpoint
          pure (PyVal.str endpoint))
    isKeyOrTypeError
    (fun _ => pure PyVal.none)

/-- api.py `print_error` (lines 675-681): print the `message` field, or the
`errorMessage` field when `message` is absent; when both are absent the
inner lookup's KeyError escapes. -/
def print_error (fields : List (String × String)) : GV Unit :=
  match fields.find? (fun e => e.1 == "message") with
  | some e => pr ("ERROR: " ++ e.2)
  | Option.none =>
    match fields.find? (fun e => e.1 == "errorMessage") with
    | some e => pr ("ERROR " ++ e.2)
    | Option.none => throwOut (.raise (.keyError "errorMessage"))

/-- The pagination `while` loop of `get_values` (lines 226-235) as fuelled
recursion: while the last page has exactly 5000 rows, fetch the next page
and concatenate; `fuel` bounds the iterations (`Outcome.diverge` signals
exhaustion, a modelling artifact). -/
def paginate (o : Oracle) (url_call : String) (verbose : PyVal) :
    ℕ → ℤ → Table → Table → GV Table
  | 0, _page, output, full =>
      if output.length == 5000 then throwOut .diverge else pure full
  | fuel + 1, page, output, full => do
      if output.length == 5000 then do
        if verbose.truthy then
          pr ("Output truncated, found page " ++ pyStr page)
        let page2 := page + 1
        let url2 := url_call ++ "&page=" ++ pyStr page2
        rawFetch url2
        match o.values url2 with
        | .rows rs => paginate o url_call verbose fuel page2 rs (full ++ rs)
        | .envelope _ =>
            throwOut (.raise (.typeError "the JSON object must be str, not dict"))
      else pure full

/-- The keyword arguments of `get_values` with the source's defaults
(api.py lines 16-21). -/
structure Args where
  series : PyVal
  jurisdiction : PyVal
  year : PyVal
  documentType : PyVal := .int 1
  summary : PyVal := .bool true
  dateIsRange : PyVal := .bool true
  country : PyVal := .bool false
  agency : PyVal := .none
  cluster : PyVal := .none
  label : PyVal := .none
  industry : PyVal := .none
  filtered : PyVal := .bool true
  labellevel : PyVal := .int 3
  industryLevel : PyVal := .none
  labelsource : PyVal := .str "NAICS"
  version : PyVal := .none
  download : PyVal := .bool false
  page : PyVal := .none
  date : PyVal := .none
  verbose : PyVal := .int 0

/-- `",".join(str(i) for i in xs)`. -/
def joinPy (xs : List PyVal) : String :=
  commaJoin (xs.map PyVal.toStr)

/-- Dictionary lookup `m[name]` on a name-keyed mapping: a missing key
raises KeyError. -/
def dictLookup (m : List (String × ℤ)) (k : String) : GV PyVal :=
  match m.find? (fun e => e.1 == k) with
  | some e => pure (PyVal.int e.2)
  | Option.none => throwOut (.raise (.keyError k))

/-- `get_values` lines 60-66: resolve jurisdiction names to ids (a value,
or a list whose first element, containing alphabetic characters is looked
up in the `list_jurisdictions` dictionary; `jurisdiction[0]` on an empty
list raises IndexError).  In the source `list_jurisdictions()[i]` is
evaluated per element; being memoized, every evaluation after the first is
served from the cache, so fetching the dictionary once is
trace-equivalent. -/
def resolveJurisdiction (o : Oracle) (jurisdiction : PyVal) : GV PyVal :=
  match jurisdiction with
  | .list xs =>
    (match xs with
     | [] => throwOut (.raise .indexError)
     | x0 :: _ =>
       if hasAlpha x0.toStr then do
         let m ← list_jurisdictions o
         let resolved ← xs.mapM (fun i =>
           match i with
           | .str s => dictLookup m s
           | other => throwOut (.raise (.keyError other.toStr)))
         pure (PyVal.list resolved)
       else pure jurisdiction)
  | j =>
    if j.truthy && hasAlpha j.toStr then do
      let m ← list_jurisdictions o
      match j with
      | .str s => dictLookup m s
      | other => throwOut (.raise (.keyError other.toStr))
    else pure j

/-- `get_values` lines 69-96: discover the endpoint through `get_endpoint`;
an IndexError prints the no-data diagnostic plus the datafinder table and
returns; a falsy endpoint prints the same diagnostic (or, when the
datafinder itself fails to parse, the jurisdiction prompt plus the
jurisdiction dictionary) and returns. -/
def resolveUrlBase (o : Oracle)
    (series jurisdiction year documentType summary : PyVal) : GV String := do
  let endpoint ← tryExcept
    (get_endpoint o series jurisdiction year documentType summary)
    isIndexError
    (fun _ => do
      pr ("No data was found for these parameters. "
        ++ "For this jurisdiction, consider the following:\n")
      let rows ← get_datafinder o jurisdiction documentType
      pr (dfToString rows)
      throwOut (.ret Option.none))
  if endpoint.truthy then
    pure (URL ++ endpoint.toStr ++ "?")
  else
    tryExcept
      (do
        let rows ← get_datafinder o jurisdiction documentType
        pr ("No data was found for these parameters. "
          ++ "For this jurisdiction, consider the following:\n\n "
          ++ dfToString rows)
        throwOut (.ret Option.none))
      isTypeErr
      (fun _ => do
        pr "Valid jurisdiction ID required. Consider the following:\n"
        let m ← list_jurisdictions o
        pr (ppDict m)
        throwOut (.ret Option.none))

/-- `get_values` lines 98-121: the `series` and `jurisdiction` query
parameters; a value that is neither a list, an int nor a str prints the
corresponding prompt plus the valid choices and returns. -/
def qSeriesJur (o : Oracle) (series jurisdiction : PyVal) (url : String) :
    GV String := do
  let mut url_call := url
  match series with
  | .list xs => url_call := url_call ++ "series=" ++ joinPy xs
  | .int n => url_call := url_call ++ "series=" ++ (PyVal.int n).toStr
  | .str s => url_call := url_call ++ "series=" ++ s
  | _ => do
      pr "Valid series ID required. Select from the following list:"
      let m ← list_series o
      pr (ppDict m)
      throwOut (.ret Option.none)
  match jurisdiction with
  | .list xs => url_call := url_call ++ "&jurisdiction=" ++ joinPy xs
  | .int n => url_call := url_call ++ "&jurisdiction=" ++ (PyVal.int n).toStr
  | .str s => url_call := url_call ++ "&jurisdiction=" ++ s
  | _ => do
      pr "Valid jurisdiction ID required."
      let m ← list_jurisdictions o
      pr (ppDict m)
      throwOut (.ret Option.none)
  pure url_call

/-- `get_values` lines 123-157: agency, cluster, the industry/industryLevel
deprecation renames, label resolution through `list_industries`, and the
labelLevel parameter.  Returns the extended URL and the (possibly resolved)
label value, which later blocks consult. -/
def qFilters (o : Oracle) (a : Args) (url : String) : GV (String × PyVal) := do
  let mut url_call := url
  match a.agency with
  | .list xs => url_call := url_call ++ "&agency=" ++ joinPy xs
  | ag => if ag.truthy then url_call := url_call ++ "&agency=" ++ ag.toStr
  match a.cluster with
  | .list xs => url_call := url_call ++ "&cluster=" ++ joinPy xs
  | cl => if cl.truthy then url_call := url_call ++ "&cluster=" ++ cl.toStr
  let mut label := a.label
  let mut labellevel := a.labellevel
  if a.industry.truthy then
    pr "WARNING: industry is deprecated; use label"
    label := a.industry
  if a.industryLevel.truthy then
    pr "WARNING: industryLevel is deprecated; use labellevel"
    labellevel := a.industryLevel
  match label with
  | .list xs => do
      let xs2 ←
        if a.labelsource.pyEq (.str "NAICS") then do
          let m ← list_industries_onlyID o labellevel a.labelsource
          xs.mapM (fun i =>
            match m.find? (fun e => e.1 == i.toStr) with
            | some e => pure (PyVal.int e.2)
            | Option.none => throwOut (.raise (.keyError i.toStr)))
        else pure xs
      label := .list xs2
      url_call := url_call ++ "&label=" ++ joinPy xs2
  | lv =>
      if lv.truthy then do
        let lv2 ←
          if a.labelsource.pyEq (.str "NAICS") then do
            let m ← list_industries_onlyID o labellevel a.labelsource
            (match m.find? (fun e => e.1 == lv.toStr) with
             | some e => pure (PyVal.int e.2)
             | Option.none => throwOut (.raise (.keyError lv.toStr)))
          else pure lv
        label := lv2
        url_call := url_call ++ "&label=" ++ lv2.toStr
  if labellevel.truthy then
    url_call := url_call ++ "&labelLevel=" ++ labellevel.toStr
  pure (url_call, label)

/-- `get_values` lines 159-175: the year parameter.  A two-element list
with the range flag expands through `range(int(y0), int(y1) + 1)`; other
lists serialize as-is; a non-list must start with four digits
(`date_format`), else the date prompt is printed — and the
`list_dates(jurisdiction, verbose=verbose)` call on line 173 then raises
TypeError, because `list_dates` accepts no `verbose` keyword. -/
def qYear (a : Args) (url : String) : GV String := do
  let mut url_call := url
  match a.year with
  | .list ys => do
      let ys2 ←
        if a.dateIsRange.truthy && ys.length == 2 then
          match ys with
          | [y0, y1] => do
              let n0 ← liftInt y0
              let n1 ← liftInt y1
              pure ((pyRange n0 (n1 + 1)).map PyVal.int)
          | other => pure other
        else pure ys
      url_call := url_call ++ "&year=" ++ joinPy ys2
  | y =>
      if date_format_match y.toStr then
        url_call := url_call ++ "&year=" ++ y.toStr
      else do
        pr "Valid date is required. Select from the following list:"
        throwOut (.raise
          (.typeError "list_dates() got an unexpected keyword argument verbose"))
  pure url_call

/-- `get_values` lines 177-213: the document-level path substitution, the
unfiltered toggle, documenttype, the country/version deprecation warnings,
the verbose echo and the manual page parameter. -/
def qToggles (a : Args) (label : PyVal) (url : String) : GV String := do
  let mut url_call := url
  if !a.summary.truthy then
    if label.truthy then
      pr ("WARNING: Returning document-level industry results. "
        ++ "This query make take several minutes.")
    url_call := pyReplace url_call "/summary" "/documents"
  if label.truthy && !a.filtered.truthy then
    pr ("WARNING: Returning unfiltered industry results. "
      ++ "Use of these results is NOT recommended.")
    url_call := url_call ++ "&filteredOnly=false"
  if a.documentType.truthy then
    url_call := url_call ++ "&documenttype=" ++ a.documentType.toStr
  if a.country.truthy then
    pr "WARNING: country is deprecated"
  if a.version.truthy then
    pr "WARNING: version is temporarily deprecated"
  if a.verbose.truthy then
    pr ("API call: " ++ pyReplace url_call " " "%20")
  if a.page.truthy then
    url_call := url_call ++ "&page=" ++ a.page.toStr
  pure url_call

/-- `get_values` lines 215-222: fetch the values URL and parse; a dict
payload makes `json.loads` raise TypeError, caught and reported through
`print_error`, returning nothing. -/
def fetchParse (o : Oracle) (url : String) : GV Table := do
  rawFetch url
  match o.values url with
  | .rows rs => pure rs
  | .envelope fields => do
      print_error fields
      throwOut (.ret Option.none)

/-- `get_values` lines 237-245: a truthy string `download` writes the
cleaned table as CSV and returns nothing; a truthy non-string prints the
outpath message and returns nothing; otherwise the cleaned table is
returned. -/
def deliver (download : PyVal) (output : Table) : GV (Option Table) :=
  if download.truthy then
    match download with
    | .str p => do
        writeFile p (clean_columns output)
        pure Option.none
    | _ => do
        pr "Valid outpath required to download."
        pure Option.none
  else
    pure (some (clean_columns output))

/-- api.py `get_values` (lines 16-245), as the sequential composition of
the stage functions above.  `o` is the network, `fuel` bounds the
pagination loop. -/
def get_values (o : Oracle) (fuel : ℕ) (a : Args) : GV (Option Table) := do
  if a.date.truthy then
    pr "WARNING: date is deprecated, use year"
    throwOut (.ret Option.none)
  let jurisdiction ← resolveJurisdiction o a.jurisdiction
  let urlBase ← resolveUrlBase o a.series jurisdiction a.year a.documentType
    a.summary
  let url1 ← qSeriesJur o a.series jurisdiction urlBase
  let r2 ← qFilters o a url1
  let url3 ← qYear a r2.1
  let url_call ← qToggles a r2.2 url3
  let output ← fetchParse o url_call
  let output2 ←
    if output.length == 5000 && !a.page.truthy then
      paginate o url_call a.verbose fuel 1 output output
    else pure output
  deliver a.download output2

/-- Run a `get_values` call from a fresh process state and collect the
observable result. -/
def get_values_run (o : Oracle) (fuel : ℕ) (a : Args) : CallResult :=
  match get_values o fuel a { prints := [], requests := [], files := [], memo := [] } with
  | (r, t) =>
    { prints := t.prints, requests := t.requests, files := t.files,
      outcome := match r with
        | .ok v => .ret v
        | .error oc => oc }
/-! ## Evaluation rules for symbolic execution of `GV` computations -/

theorem GV_bind_eval {α β : Type} (m : GV α) (f : α → GV β) (t : Trace) :
    GV.bindCore m f t
      = match m t with
        | (.ok a, t2) => f a t2
        | (.error o, t2) => (.error o, t2) := rfl

theorem pr_app (s : String) (t : Trace) :
    pr s t = (.ok (), { t with prints := t.prints ++ [s] }) := rfl

theorem rawFetch_app (u : String) (t : Trace) :
    rawFetch u t = (.ok (), { t with requests := t.requests ++ [u] }) := rfl

theorem writeFile_app (p : String) (tbl : Table) (t : Trace) :
    writeFile p tbl t = (.ok (), { t with files := t.files ++ [(p, tbl)] }) := rfl

theorem memoCheck_app (u : String) (t : Trace) :
    memoCheck u t = (.ok (t.memo.contains u), t) := rfl

theorem memoMark_app (u : String) (t : Trace) :
    memoMark u t = (.ok (), { t with memo := t.memo ++ [u] }) := rfl

theorem throwOut_app {α : Type} (o : Outcome) (t : Trace) :
    (throwOut o : GV α) t = (.error o, t) := rfl

theorem pureCore_app {α : Type} (a : α) (t : Trace) :
    GV.pureCore a t = (.ok a, t) := rfl

theorem tryExcept_app {α : Type} (body : GV α) (sel : PyExn → Bool)
    (handler : PyExn → GV α) (t : Trace) :
    tryExcept body sel handler t
      = match body t with
        | (.error (.raise e), t2) =>
          if sel e then handler e t2 else (.error (.raise e), t2)
        | other => other := rfl

/-! ## Claim theorems -/

/-- C10: whenever the deprecated `date` keyword argument is truthy,
`get_values` prints the deprecation warning and returns None immediately —
no HTTP request, no name resolution, no file written — for any oracle, any
fuel and any remaining arguments. -/
theorem claim_C10 (o : Oracle) (fuel : ℕ) (a : Args)
    (h : a.date.truthy = true) :
    get_values_run o fuel a
      = { prints := ["WARNING: date is deprecated, use year"], requests := [],
          files := [], outcome := .ret Option.none } := by
  unfold get_values_run get_values
  simp only [h, if_true, eq_self_iff_true, GV_bind_def, GV_pure_def, GV_bind_eval,
    pr_app, rawFetch_app, writeFile_app, memoCheck_app, memoMark_app,
    throwOut_app, pureCore_app, tryExcept_app, List.nil_append]

/-- Witness for C10: a concrete call with `date=2019` and otherwise valid
parameters. -/
theorem claim_C10_witness :
    get_values_run
      { datafinder := fun _ => .ok [], jurisdictions := [], seriesContent := [],
        labels := fun _ => [], values := fun _ => .rows [] } 1
      { series := .int 1, jurisdiction := .int 38, year := .int 2020,
        date := .int 2019 }
      = { prints := ["WARNING: date is deprecated, use year"], requests := [],
          files := [], outcome := .ret Option.none } :=
  claim_C10 _ 1 _ (by decide)

theorem digitChar_not_alpha (d : ℕ) : (digitChar d).isAlpha = false := by
  unfold digitChar
  split <;> decide

theorem natCharsAux_not_alpha (fuel : ℕ) :
    ∀ n, ∀ c ∈ natCharsAux fuel n, c.isAlpha = false := by
  induction fuel with
  | zero =>
    intro n c hc
    simp only [natCharsAux, List.mem_singleton] at hc
    subst hc
    exact digitChar_not_alpha n
  | succ f ih =>
    intro n c hc
    unfold natCharsAux at hc
    split at hc
    · simp only [List.mem_singleton] at hc
      subst hc
      exact digitChar_not_alpha n
    · rcases List.mem_append.mp hc with h | h
      · exact ih (n / 10) c h
      · simp only [List.mem_singleton] at h
        subst h
        exact digitChar_not_alpha (n % 10)

theorem natChars_not_alpha (n : ℕ) : ∀ c ∈ natChars n, c.isAlpha = false :=
  natCharsAux_not_alpha n n

theorem hasAlpha_pyStr (n : ℤ) : hasAlpha (pyStr n) = false := by
  unfold hasAlpha
  rw [List.any_eq_false]
  intro c hc
  unfold pyStr at hc
  split at hc
  · have hmem : c ∈ ('-' :: natChars (-n).toNat) := hc
    rcases List.mem_cons.mp hmem with he | h2
    · rw [he]
      decide
    · rw [natChars_not_alpha _ c h2]
      simp
  · have h2 : c ∈ natChars n.toNat := hc
    rw [natChars_not_alpha _ c h2]
    simp

theorem hasAlpha_toStr_int (j : ℤ) : hasAlpha ((PyVal.int j).toStr) = false :=
  hasAlpha_pyStr j

theorem resolveJurisdiction_int (o : Oracle) (j : ℤ) (t : Trace) :
    resolveJurisdiction o (.int j) t = (.ok (.int j), t) := by
  unfold resolveJurisdiction
  simp only [hasAlpha_toStr_int, Bool.and_false, Bool.false_eq_true, if_false,
    GV_pure_def, pureCore_app]

theorem pyEq_int_none (a : ℤ) : (PyVal.int a).pyEq .none = false := rfl

def seriesPrompt : String := "Valid series ID required. Select from the following list:"

def noDataMsgA : String :=
  "No data was found for these parameters. For this jurisdiction, consider the following:\n"

def jurPromptNL : String := "Valid jurisdiction ID required. Consider the following:\n"

theorem c2_none_series (o : Oracle) (fuel : ℕ) (j y : ℤ) :
    (get_values_run o fuel
      { series := .none, jurisdiction := .int j, year := .int y }).outcome
        = .ret Option.none
  ∧ (get_values_run o fuel
      { series := .none, jurisdiction := .int j, year := .int y }).prints
      = (match o.datafinder (URL ++ "/datafinder?jurisdiction="
            ++ (PyVal.int j).toStr ++ "&documenttype="
            ++ (PyVal.int 1).toStr) with
         | .ok rows => [noDataMsgA, dfToString rows]
         | .error _ => [jurPromptNL, ppDict (list_jurisdictions_dict o.jurisdictions)]) := by
  have e1 : (PyVal.int 1).truthy = true := rfl
  have en : (PyVal.none).truthy = false := rfl
  constructor <;>
  · unfold get_values_run get_values resolveUrlBase get_endpoint get_datafinder
      qSeriesJur list_jurisdictions
    rcases hdf : o.datafinder (URL ++ "/datafinder?jurisdiction="
        ++ (PyVal.int j).toStr ++ "&documenttype="
        ++ (PyVal.int 1).toStr) with e | rows <;>
    · simp only [resolveJurisdiction_int, GV_bind_def, GV_pure_def, GV_bind_eval,
        pr_app, rawFetch_app, writeFile_app, memoCheck_app, memoMark_app,
        throwOut_app, pureCore_app, tryExcept_app, e1, en,
        isIndexError, isKeyOrTypeError, isTypeErr, if_true, if_false,
        eq_self_iff_true, List.nil_append, List.contains_nil,
        Bool.false_eq_true, Bool.true_eq_false]
      rw [hdf]
      simp only [GV_bind_def, GV_pure_def, GV_bind_eval,
        pr_app, rawFetch_app, writeFile_app, memoCheck_app, memoMark_app,
        throwOut_app, pureCore_app, tryExcept_app, e1, en, queryMatch,
        pyEq_int_none, Bool.false_and, List.filter_false,
        isIndexError, isKeyOrTypeError, isTypeErr, if_true, if_false,
        eq_self_iff_true, List.nil_append, List.contains_nil, List.contains_cons,
        beq_self_eq_true, Bool.or_false, Bool.true_or, Bool.or_true,
        Bool.false_eq_true, Bool.true_eq_false, noDataMsgA, jurPromptNL]
      try rfl

def c2scen : Oracle :=
  { datafinder := fun _ => .ok [⟨1, .int 2020, "/state-summary", "", ""⟩]
  , jurisdictions := [("Alabama", 59)]
  , seriesContent := [("Restrictions", 1)]
  , labels := fun _ => []
  , values := fun _ => .rows [] }

def c2scenY : Oracle :=
  { c2scen with datafinder := fun _ => .ok [⟨1, .int 99, "/state-summary", "", ""⟩] }


theorem strNe_of_head (s1 s2 : String) (c1 c2 : Char)
    (h1 : s1.data.head? = some c1) (h2 : s2.data.head? = some c2)
    (hne : c1 ≠ c2) : s1 ≠ s2 := by
  intro he
  rw [he, h2] at h1
  exact hne (Option.some_inj.mp h1).symm

theorem dfToString_head (rows : List DFRow) :
    (dfToString rows).data.head? = some 'd' := rfl

theorem ppDict_head (d : List (String × ℤ)) :
    (ppDict d).data.head? = some '\x7b' := rfl

/-- C2 (amended): with the deprecated-date guard off, the series check
(lines 99-108) does come before the jurisdiction check (lines 111-121),
which comes before the year check (lines 160-175), and the series and
jurisdiction checks print their prompt plus the valid choices and return
nothing — but (a) a call with `series=None` and a numeric jurisdiction
never reaches the series check: endpoint discovery fails first and the
call prints the no-data diagnostic (or, if the datafinder response fails
to parse, the endpoint-stage jurisdiction message), never the
series-selection prompt; and (b) a failing year check prints the date
prompt but then raises TypeError (the `list_dates(jurisdiction,
verbose=verbose)` call passes a keyword `list_dates` does not accept)
instead of returning cleanly. -/
theorem claim_C2 :
    (∀ (o : Oracle) (fuel : ℕ) (j y : ℤ),
      (get_values_run o fuel
        { series := .none, jurisdiction := .int j, year := .int y }).outcome
          = .ret Option.none
      ∧ seriesPrompt ∉ (get_values_run o fuel
          { series := .none, jurisdiction := .int j, year := .int y }).prints)
  ∧ ((get_values_run c2scen 1
        { series := .bool true, jurisdiction := .int 38, year := .int 2020 }).prints
          = [seriesPrompt, "\x7b'Restrictions': 1\x7d"]
      ∧ (get_values_run c2scen 1
          { series := .bool true, jurisdiction := .int 38, year := .int 2020 }).outcome
            = .ret Option.none)
  ∧ ((get_values_run c2scen 1
        { series := .int 1, jurisdiction := .none, year := .int 2020 }).prints
          = ["Valid jurisdiction ID required.", "\x7b'Alabama': 59\x7d"]
      ∧ (get_values_run c2scen 1
          { series := .int 1, jurisdiction := .none, year := .int 2020 }).outcome
            = .ret Option.none)
  ∧ ((get_values_run c2scenY 1
        { series := .int 1, jurisdiction := .int 38, year := .int 99 }).prints
          = ["Valid date is required. Select from the following list:"]
      ∧ (get_values_run c2scenY 1
          { series := .int 1, jurisdiction := .int 38, year := .int 99 }).outcome
            = .raise (.typeError
                "list_dates() got an unexpected keyword argument verbose")) := by
  refine ⟨?_, ⟨by decide, by decide⟩, ⟨by decide, by decide⟩, ⟨by decide, by decide⟩⟩
  intro o fuel j y
  obtain ⟨ho, hp⟩ := c2_none_series o fuel j y
  refine ⟨ho, ?_⟩
  rw [hp]
  rcases o.datafinder (URL ++ "/datafinder?jurisdiction="
      ++ (PyVal.int j).toStr ++ "&documenttype=" ++ (PyVal.int 1).toStr) with e | rows
  · intro hmem
    rcases List.mem_cons.mp hmem with he | hmem2
    · exact absurd he (by decide)
    · rcases List.mem_cons.mp hmem2 with he | hmem3
      · exact strNe_of_head seriesPrompt (ppDict (list_jurisdictions_dict o.jurisdictions))
          'V' '\x7b' rfl (ppDict_head _) (by decide) he
      · simp at hmem3
  · intro hmem
    rcases List.mem_cons.mp hmem with he | hmem2
    · exact absurd he (by decide)
    · rcases List.mem_cons.mp hmem2 with he | hmem3
      · exact strNe_of_head seriesPrompt (dfToString rows) 'V' 'd' rfl
          (dfToString_head _) (by decide) he
      · simp at hmem3

/-- C2 counterexample to the claim as stated: at a concrete oracle,
`get_values(series=None, jurisdiction=38, year=2020)` returns nothing but
prints the no-data diagnostic, not the series-selection prompt. -/
theorem claim_C2_counterexample :
    (get_values_run c2scen 1
      { series := .none, jurisdiction := .int 38, year := .int 2020 }).outcome
        = .ret Option.none
  ∧ seriesPrompt ∉ (get_values_run c2scen 1
      { series := .none, jurisdiction := .int 38, year := .int 2020 }).prints := by
  constructor
  · decide
  · decide

/-- A page with fewer than 5000 rows ends the pagination loop at once: the
accumulated table is returned and no further request is issued. -/
theorem paginate_stop (o : Oracle) (u : String) (v : PyVal) (f : ℕ) (page : ℤ)
    (out full : Table) (h : out.length < 5000) (t : Trace) :
    paginate o u v f page out full t = (.ok full, t) := by
  have h5 : (out.length == 5000) = false := by
    simp [Nat.ne_of_lt h]
  cases f with
  | zero => simp [paginate, h5, GV_pure_def, pureCore_app]
  | succ f => simp [paginate, h5, GV_pure_def, pureCore_app]

/-- A page with exactly 5000 rows makes the loop fetch the next page (the
page counter incremented by one) and continue on that page's rows, with the
accumulator extended in order. -/
theorem paginate_step (o : Oracle) (u : String) (f : ℕ) (page : ℤ)
    (out full rs : Table) (h : out.length = 5000)
    (hv : o.values (u ++ "&page=" ++ pyStr (page + 1)) = .rows rs) (t : Trace) :
    paginate o u (.int 0) (f + 1) page out full t
      = paginate o u (.int 0) f (page + 1) rs (full ++ rs)
          { t with requests := t.requests ++ [u ++ "&page=" ++ pyStr (page + 1)] } := by
  have h5 : (out.length == 5000) = true := by simp [h]
  have hv0 : (PyVal.int 0).truthy = false := rfl
  conv_lhs => rw [paginate]
  simp only [h5, hv0, if_true, Bool.false_eq_true, if_false, GV_bind_def,
    GV_pure_def, GV_bind_eval, pureCore_app, rawFetch_app, pr_app]
  rw [hv]

/-- The datafinder URL of the series-1/jurisdiction-38 scenario. -/
abbrev c1dfUrl : String :=
  URL ++ "/datafinder?jurisdiction=" ++ (PyVal.int 38).toStr
    ++ "&documenttype=" ++ (PyVal.int 1).toStr

/-- The values URL built by `get_values(series=1, jurisdiction=38,
year=2020)` with default keywords. -/
abbrev c1url : String :=
  URL ++ "/state-summary" ++ "?" ++ "series=" ++ (PyVal.int 1).toStr
    ++ "&jurisdiction=" ++ (PyVal.int 38).toStr
    ++ "&labelLevel=" ++ (PyVal.int 3).toStr
    ++ "&year=" ++ (PyVal.int 2020).toStr
    ++ "&documenttype=" ++ (PyVal.int 1).toStr

abbrev c1url2 : String := c1url ++ "&page=" ++ pyStr 2

/-- End-to-end pagination: when page 1 of the values endpoint yields exactly
5000 rows and page 2 fewer, the call issues the datafinder request plus
exactly two values requests and returns the cleaned concatenation. -/
theorem get_values_two_pages (o : Oracle) (f : ℕ) (r1 r2 : Table)
    (hdf : o.datafinder (URL ++ "/datafinder?jurisdiction="
        ++ (PyVal.int 38).toStr ++ "&documenttype="
        ++ (PyVal.int 1).toStr) = .ok [⟨1, .int 2020, "/state-summary", "", ""⟩])
    (hv1 : o.values c1url = .rows r1)
    (hv2 : o.values c1url2 = .rows r2)
    (h1 : r1.length = 5000) (h2 : r2.length < 5000) :
    get_values_run o (f + 1)
      { series := .int 1, jurisdiction := .int 38, year := .int 2020 }
      = { prints := [], requests := [c1dfUrl, c1url, c1url2], files := [],
          outcome := .ret (some (clean_columns (r1 ++ r2))) } := by
  have e1 : (PyVal.int 1).truthy = true := rfl
  have e3 : (PyVal.int 3).truthy = true := rfl
  have e0 : (PyVal.int 0).truthy = false := rfl
  have en : (PyVal.none).truthy = false := rfl
  have ebt : (PyVal.bool true).truthy = true := rfl
  have ebf : (PyVal.bool false).truthy = false := rfl
  have edm : date_format_match (PyVal.int 2020).toStr = true := rfl
  have eqp1 : (PyVal.int 1).pyEq (PyVal.int 1) = true := by decide
  have eqp2 : (PyVal.int 2020).pyEq (PyVal.int 2020) = true := by decide
  have hse : (("/state-summary" : String) == "") = false := rfl
  have est : (PyVal.str "/state-summary").truthy = true := rfl
  have ets : (PyVal.str "/state-summary").toStr = "/state-summary" := rfl
  unfold get_values_run get_values resolveUrlBase get_endpoint get_datafinder
    qSeriesJur qFilters qYear qToggles fetchParse deliver list_jurisdictions
  simp only [resolveJurisdiction_int, GV_bind_def, GV_pure_def, GV_bind_eval,
    pr_app, rawFetch_app, writeFile_app, memoCheck_app, memoMark_app,
    throwOut_app, pureCore_app, tryExcept_app, e1, e3, e0, en, ebt, ebf, edm,
    isIndexError, isKeyOrTypeError, isTypeErr, if_true, if_false,
    eq_self_iff_true, List.nil_append, List.contains_nil,
    Bool.false_eq_true, Bool.true_eq_false, Bool.not_true, Bool.not_false]
  rw [hdf]
  simp only [GV_bind_def, GV_pure_def, GV_bind_eval,
    pr_app, rawFetch_app, writeFile_app, memoCheck_app, memoMark_app,
    throwOut_app, pureCore_app, tryExcept_app, e1, e3, e0, en, ebt, ebf, edm,
    eqp1, eqp2, hse, est, ets, queryMatch,
    isIndexError, isKeyOrTypeError, isTypeErr, if_true, if_false,
    eq_self_iff_true, List.nil_append, List.contains_nil, List.contains_cons,
    List.filter_cons, List.filter_nil, beq_self_eq_true, Bool.or_false,
    Bool.true_or, Bool.or_true, Bool.and_true, Bool.true_and, Bool.and_self,
    Bool.false_and, Bool.and_false,
    Bool.false_eq_true, Bool.true_eq_false, Bool.not_true, Bool.not_false]
  rw [hv1]
  simp only [GV_bind_def, GV_pure_def, GV_bind_eval, pureCore_app, h1,
    beq_self_eq_true, if_true, Bool.and_true, Bool.true_and, Bool.not_false,
    en, Bool.false_eq_true, if_false]
  rw [paginate_step o c1url f 1 r1 r1 r2 h1 hv2]
  rw [paginate_stop o c1url (PyVal.int 0) f (1 + 1) r2 (r1 ++ r2) h2]
  simp only [GV_bind_eval, GV_pure_def, pureCore_app, List.nil_append,
    List.cons_append, List.append_nil]
  rfl

def c1row : Row := [("v_x", "1")]

def c1scen : Oracle :=
  { datafinder := fun _ => .ok [⟨1, .int 2020, "/state-summary", "", ""⟩]
  , jurisdictions := [("Alabama", 59)]
  , seriesContent := [("Restrictions", 1)]
  , labels := fun _ => []
  , values := fun u =>
      if u = c1url2 then .rows (List.replicate 2 c1row)
      else if u = c1url then .rows (List.replicate 5000 c1row)
      else .rows [] }

/-- C1: when no explicit page is given and a page flattens to exactly 5000
rows, `get_values` refetches with an incrementing page parameter,
concatenating rows in order, and stops as soon as a page returns fewer than
5000 rows; with 5000 rows on page 1 and N < 5000 on page 2, the result has
5000 + N rows via exactly two values-endpoint requests (plus the single
datafinder request). -/
theorem claim_C1 :
    (∀ (o : Oracle) (u : String) (f : ℕ) (page : ℤ) (out full rs : Table)
        (t : Trace),
      out.length = 5000 →
      o.values (u ++ "&page=" ++ pyStr (page + 1)) = .rows rs →
      paginate o u (.int 0) (f + 1) page out full t
        = paginate o u (.int 0) f (page + 1) rs (full ++ rs)
            { t with requests := t.requests ++ [u ++ "&page=" ++ pyStr (page + 1)] })
  ∧ (∀ (o : Oracle) (u : String) (v : PyVal) (f : ℕ) (page : ℤ) (out full : Table)
        (t : Trace),
      out.length < 5000 →
      paginate o u v f page out full t = (.ok full, t))
  ∧ (∀ (o : Oracle) (f : ℕ) (r1 r2 : Table),
      o.datafinder c1dfUrl = .ok [⟨1, .int 2020, "/state-summary", "", ""⟩] →
      o.values c1url = .rows r1 →
      o.values c1url2 = .rows r2 →
      r1.length = 5000 → r2.length < 5000 →
      get_values_run o (f + 1)
        { series := .int 1, jurisdiction := .int 38, year := .int 2020 }
        = { prints := [], requests := [c1dfUrl, c1url, c1url2], files := [],
            outcome := .ret (some (clean_columns (r1 ++ r2))) }
      ∧ (clean_columns (r1 ++ r2)).length = 5000 + r2.length) := by
  refine ⟨fun o u f page out full rs t h hv => paginate_step o u f page out full rs h hv t,
    fun o u v f page out full t h => paginate_stop o u v f page out full h t,
    fun o f r1 r2 hdf hv1 hv2 h1 h2 => ⟨?_, by simp [clean_columns, h1]⟩⟩
  exact get_values_two_pages o f r1 r2 hdf hv1 hv2 h1 h2

/-- C1 at a concrete oracle: 5000 rows on page 1, 2 rows on page 2. -/
theorem claim_C1_witness :
    get_values_run c1scen (0 + 1)
      { series := .int 1, jurisdiction := .int 38, year := .int 2020 }
      = { prints := [], requests := [c1dfUrl, c1url, c1url2], files := [],
          outcome := .ret (some (clean_columns
            (List.replicate 5000 c1row ++ List.replicate 2 c1row))) }
    ∧ (clean_columns (List.replicate 5000 c1row ++ List.replicate 2 c1row)).length
        = 5000 + (List.replicate 2 c1row : Table).length :=
  claim_C1.2.2 c1scen 0 (List.replicate 5000 c1row) (List.replicate 2 c1row)
    rfl rfl rfl (by rw [List.length_replicate])
    (by rw [List.length_replicate]; omega)

/-- A two-element year list with the range flag set serializes as the
comma-joined expansion `range(int(y0), int(y1) + 1)`. -/
theorem c3a (a : Args) (url : String) (v0 v1 : PyVal) (n0 n1 : ℤ) (t : Trace)
    (hy : a.year = .list [v0, v1]) (hr : a.dateIsRange.truthy = true)
    (h0 : pyToInt v0 = .ok n0) (h1 : pyToInt v1 = .ok n1) :
    qYear a url t
      = (.ok (url ++ "&year=" ++ joinPy ((pyRange n0 (n1 + 1)).map PyVal.int)), t) := by
  unfold qYear liftInt
  rw [hy, hr]
  simp only [List.length_cons, List.length_nil, GV_bind_def, GV_pure_def,
    GV_bind_eval, pureCore_app, if_true, beq_self_eq_true, Bool.true_and,
    Nat.reduceAdd]
  rw [h0, h1]
  simp only [GV_bind_def, GV_pure_def, GV_bind_eval, pureCore_app]

/-- The expanded range holds exactly the integer years of the inclusive
span. -/
theorem c3b (y n0 n1 : ℤ) :
    PyVal.int y ∈ (pyRange n0 (n1 + 1)).map PyVal.int ↔ n0 ≤ y ∧ y ≤ n1 := by
  constructor
  · intro h
    obtain ⟨z, hz, hzy⟩ := List.mem_map.mp h
    injection hzy with hzy2
    subst hzy2
    simp only [pyRange, List.mem_map, List.mem_range] at hz
    obtain ⟨i, hi, hiy⟩ := hz
    omega
  · rintro ⟨ha, hb⟩
    refine List.mem_map.mpr ⟨y, ?_, rfl⟩
    simp only [pyRange, List.mem_map, List.mem_range]
    refine ⟨(y - n0).toNat, by omega, by omega⟩

/-- A year list whose length is not two serializes as the comma-join of its
own elements unchanged. -/
theorem c3c (a : Args) (url : String) (ys : List PyVal) (t : Trace)
    (hy : a.year = .list ys) (hlen : ys.length ≠ 2) :
    qYear a url t = (.ok (url ++ "&year=" ++ joinPy ys), t) := by
  unfold qYear
  rw [hy]
  have h2 : (ys.length == 2) = false := by simp [hlen]
  simp only [h2, Bool.and_false, Bool.false_eq_true, if_false, GV_bind_def,
    GV_pure_def, GV_bind_eval, pureCore_app]

/-- With the range flag unset, any year list serializes as the comma-join
of its own elements unchanged. -/
theorem c3d (a : Args) (url : String) (ys : List PyVal) (t : Trace)
    (hy : a.year = .list ys) (hr : a.dateIsRange.truthy = false) :
    qYear a url t = (.ok (url ++ "&year=" ++ joinPy ys), t) := by
  unfold qYear
  rw [hy, hr]
  simp only [Bool.false_and, Bool.false_eq_true, if_false, GV_bind_def,
    GV_pure_def, GV_bind_eval, pureCore_app]

/-- C3: a two-element year list with `dateIsRange` true serializes into the
URL as the comma-joined sequence of every integer year from `int(Y1)` to
`int(Y2)` inclusive; a list of any other length, or any list with
`dateIsRange` false, serializes as the comma-join of its own elements
unchanged. -/
theorem claim_C3 :
    (∀ (a : Args) (url : String) (v0 v1 : PyVal) (n0 n1 : ℤ) (t : Trace),
      a.year = .list [v0, v1] → a.dateIsRange.truthy = true →
      pyToInt v0 = .ok n0 → pyToInt v1 = .ok n1 →
      qYear a url t
        = (.ok (url ++ "&year=" ++ joinPy ((pyRange n0 (n1 + 1)).map PyVal.int)), t))
  ∧ (∀ (y n0 n1 : ℤ),
      PyVal.int y ∈ (pyRange n0 (n1 + 1)).map PyVal.int ↔ n0 ≤ y ∧ y ≤ n1)
  ∧ (∀ (a : Args) (url : String) (ys : List PyVal) (t : Trace),
      a.year = .list ys → ys.length ≠ 2 →
      qYear a url t = (.ok (url ++ "&year=" ++ joinPy ys), t))
  ∧ (∀ (a : Args) (url : String) (ys : List PyVal) (t : Trace),
      a.year = .list ys → a.dateIsRange.truthy = false →
      qYear a url t = (.ok (url ++ "&year=" ++ joinPy ys), t)) :=
  ⟨fun a url v0 v1 n0 n1 t hy hr h0 h1 => c3a a url v0 v1 n0 n1 t hy hr h0 h1,
   fun y n0 n1 => c3b y n0 n1,
   fun a url ys t hy hlen => c3c a url ys t hy hlen,
   fun a url ys t hy hr => c3d a url ys t hy hr⟩

/-- C3 at concrete inputs: `[2020, 2022]` expands to 2020,2021,2022; a
three-element list and a range-flag-off list pass through unchanged. -/
theorem claim_C3_witness :
    qYear { series := .none, jurisdiction := .none,
            year := .list [.int 2020, .int 2022] } "u?"
        ⟨[], [], [], []⟩
      = (.ok ("u?" ++ "&year="
          ++ joinPy ((pyRange 2020 (2022 + 1)).map PyVal.int)), ⟨[], [], [], []⟩)
  ∧ (PyVal.int 2021 ∈ (pyRange 2020 (2022 + 1)).map PyVal.int
      ↔ 2020 ≤ (2021 : ℤ) ∧ (2021 : ℤ) ≤ 2022)
  ∧ qYear { series := .none, jurisdiction := .none,
            year := .list [.int 2020, .int 2021, .int 2022] } "u?"
        ⟨[], [], [], []⟩
      = (.ok ("u?" ++ "&year=" ++ joinPy [.int 2020, .int 2021, .int 2022]),
         ⟨[], [], [], []⟩)
  ∧ qYear { series := .none, jurisdiction := .none,
            year := .list [.int 2020, .int 2022],
            dateIsRange := .bool false } "u?"
        ⟨[], [], [], []⟩
      = (.ok ("u?" ++ "&year=" ++ joinPy [.int 2020, .int 2022]),
         ⟨[], [], [], []⟩) :=
  ⟨claim_C3.1 _ "u?" _ _ 2020 2022 _ rfl rfl rfl rfl,
   claim_C3.2.1 2021 2020 2022,
   claim_C3.2.2.1 _ "u?" _ _ rfl (by decide),
   claim_C3.2.2.2 _ "u?" _ _ rfl rfl⟩

/-- A network where the values endpoint yields one row with a `v_`-prefixed
column. -/
def c5scen : Oracle :=
  { datafinder := fun _ => .ok [⟨1, .int 2020, "/state-summary", "", ""⟩]
  , jurisdictions := [("Alabama", 59)]
  , seriesContent := [("Restrictions", 1)]
  , labels := fun _ => []
  , values := fun _ => .rows [[("v_x", "1")]] }

/-- C5 (amended): after a successful fetch, a *truthy* string `download`
writes the cleaned table to that path and the call returns nothing; a
truthy non-string prints the invalid-outpath message, creates no file, and
returns nothing; any falsy `download` — including the empty string, which
is a string — returns the cleaned table directly. -/
theorem claim_C5 :
    (∀ (p : String) (out : Table) (t : Trace), p ≠ "" →
      deliver (.str p) out t
        = (.ok Option.none, { t with files := t.files ++ [(p, clean_columns out)] }))
  ∧ (∀ (d : PyVal) (out : Table) (t : Trace),
      d.truthy = true → (∀ s, d ≠ .str s) →
      deliver d out t
        = (.ok Option.none,
           { t with prints := t.prints ++ ["Valid outpath required to download."] }))
  ∧ (∀ (d : PyVal) (out : Table) (t : Trace),
      d.truthy = false →
      deliver d out t = (.ok (some (clean_columns out)), t))
  ∧ (get_values_run c5scen 1
      { series := .int 1, jurisdiction := .int 38, year := .int 2020,
        download := .str "out.csv" }
      = { prints := [],
          requests := ["https://api.quantgov.org/datafinder?jurisdiction=38&documenttype=1",
            "https://api.quantgov.org/state-summary?series=1&jurisdiction=38&labelLevel=3&year=2020&documenttype=1"],
          files := [("out.csv", [[("x", "1")]])],
          outcome := .ret Option.none })
  ∧ (get_values_run c5scen 1
      { series := .int 1, jurisdiction := .int 38, year := .int 2020,
        download := .bool true }
      = { prints := ["Valid outpath required to download."],
          requests := ["https://api.quantgov.org/datafinder?jurisdiction=38&documenttype=1",
            "https://api.quantgov.org/state-summary?series=1&jurisdiction=38&labelLevel=3&year=2020&documenttype=1"],
          files := [],
          outcome := .ret Option.none }) := by
  refine ⟨?_, ?_, ?_, by decide, by decide⟩
  · intro p out t hp
    have ht : (PyVal.str p).truthy = true := by
      simp [PyVal.truthy, hp]
    unfold deliver
    rw [ht]
    simp only [if_true, GV_bind_def, GV_pure_def, GV_bind_eval, pureCore_app,
      writeFile_app]
  · intro d out t ht hs
    unfold deliver
    rw [ht]
    match d with
    | .str s => exact absurd rfl (hs s)
    | .bool b =>
        simp only [if_true, GV_bind_def, GV_pure_def, GV_bind_eval,
          pureCore_app, pr_app]
    | .int n =>
        simp only [if_true, GV_bind_def, GV_pure_def, GV_bind_eval,
          pureCore_app, pr_app]
    | .none =>
        simp only [if_true, GV_bind_def, GV_pure_def, GV_bind_eval,
          pureCore_app, pr_app]
    | .list xs =>
        simp only [if_true, GV_bind_def, GV_pure_def, GV_bind_eval,
          pureCore_app, pr_app]
  · intro d out t ht
    unfold deliver
    rw [ht]
    simp only [Bool.false_eq_true, if_false, GV_pure_def, pureCore_app]

/-- C5 counterexample to the claim as stated: `download=""` is a string,
yet the table is returned directly and no file is written, because the
source tests truthiness before the string type. -/
theorem claim_C5_counterexample :
    (PyVal.str "").truthy = false
  ∧ deliver (.str "") [[("a", "1")]] ⟨[], [], [], []⟩
      = (.ok (some [[("a", "1")]]), ⟨[], [], [], []⟩)
  ∧ get_values_run c5scen 1
      { series := .int 1, jurisdiction := .int 38, year := .int 2020,
        download := .str "" }
      = { prints := [],
          requests := ["https://api.quantgov.org/datafinder?jurisdiction=38&documenttype=1",
            "https://api.quantgov.org/state-summary?series=1&jurisdiction=38&labelLevel=3&year=2020&documenttype=1"],
          files := [],
          outcome := .ret (some [[("x", "1")]]) } := by
  refine ⟨rfl, rfl, by decide⟩

/-- C5 at concrete inputs: a path string writes the file, `True` prints the
message, `False` returns the table. -/
theorem claim_C5_witness :
    deliver (.str "out.csv") [[("a", "1")]] ⟨[], [], [], []⟩
      = (.ok Option.none, ⟨[], [], [("out.csv", [[("a", "1")]])], []⟩)
  ∧ deliver (.bool true) [[("a", "1")]] ⟨[], [], [], []⟩
      = (.ok Option.none, ⟨["Valid outpath required to download."], [], [], []⟩)
  ∧ deliver (.bool false) [[("a", "1")]] ⟨[], [], [], []⟩
      = (.ok (some [[("a", "1")]]), ⟨[], [], [], []⟩) :=
  ⟨claim_C5.1 "out.csv" [[("a", "1")]] ⟨[], [], [], []⟩ (by decide),
   claim_C5.2.1 (.bool true) [[("a", "1")]] ⟨[], [], [], []⟩ rfl
     (fun s h => by cases h),
   claim_C5.2.2.1 (.bool false) [[("a", "1")]] ⟨[], [], [], []⟩ rfl⟩

/-- With every optional filter supplied as a truthy scalar (and a
non-NAICS label source, so the label passes through unresolved), the
query-building stages of `get_values` emit the parameters in the source's
strict order: series, jurisdiction, agency, cluster, label, labelLevel,
year, filteredOnly, documenttype, page. -/
theorem c6order (o : Oracle) (url : String) (t : Trace)
    (sn jn an cn ln lln yn dn pn : ℤ)
    (han : an ≠ 0) (hcn : cn ≠ 0) (hln : ln ≠ 0) (hlln : lln ≠ 0)
    (hdn : dn ≠ 0) (hpn : pn ≠ 0)
    (hdm : date_format_match (PyVal.int yn).toStr = true) :
    (qSeriesJur o (.int sn) (.int jn) url >>= fun u1 =>
     qFilters o
       { series := .int sn, jurisdiction := .int jn, year := .int yn,
         agency := .int an, cluster := .int cn, label := .int ln,
         labellevel := .int lln, labelsource := .str "X",
         filtered := .bool false, documentType := .int dn,
         page := .int pn } u1 >>= fun r2 =>
     qYear
       { series := .int sn, jurisdiction := .int jn, year := .int yn,
         agency := .int an, cluster := .int cn, label := .int ln,
         labellevel := .int lln, labelsource := .str "X",
         filtered := .bool false, documentType := .int dn,
         page := .int pn } r2.1 >>= fun u3 =>
     qToggles
       { series := .int sn, jurisdiction := .int jn, year := .int yn,
         agency := .int an, cluster := .int cn, label := .int ln,
         labellevel := .int lln, labelsource := .str "X",
         filtered := .bool false, documentType := .int dn,
         page := .int pn } r2.2 u3) t
      = (.ok (url ++ "series=" ++ (PyVal.int sn).toStr
          ++ "&jurisdiction=" ++ (PyVal.int jn).toStr
          ++ "&agency=" ++ (PyVal.int an).toStr
          ++ "&cluster=" ++ (PyVal.int cn).toStr
          ++ "&label=" ++ (PyVal.int ln).toStr
          ++ "&labelLevel=" ++ (PyVal.int lln).toStr
          ++ "&year=" ++ (PyVal.int yn).toStr
          ++ "&filteredOnly=false"
          ++ "&documenttype=" ++ (PyVal.int dn).toStr
          ++ "&page=" ++ (PyVal.int pn).toStr),
         { t with prints := t.prints
            ++ ["WARNING: Returning unfiltered industry results. "
                ++ "Use of these results is NOT recommended."] }) := by
  have tan : (PyVal.int an).truthy = true := by simp [PyVal.truthy, han]
  have tcn : (PyVal.int cn).truthy = true := by simp [PyVal.truthy, hcn]
  have tln : (PyVal.int ln).truthy = true := by simp [PyVal.truthy, hln]
  have tlln : (PyVal.int lln).truthy = true := by simp [PyVal.truthy, hlln]
  have tdn : (PyVal.int dn).truthy = true := by simp [PyVal.truthy, hdn]
  have tpn : (PyVal.int pn).truthy = true := by simp [PyVal.truthy, hpn]
  have en : (PyVal.none).truthy = false := rfl
  have ebt : (PyVal.bool true).truthy = true := rfl
  have ebf : (PyVal.bool false).truthy = false := rfl
  have e0 : (PyVal.int 0).truthy = false := rfl
  have hx : (PyVal.str "X").pyEq (.str "NAICS") = false := rfl
  unfold qSeriesJur qFilters qYear qToggles
  simp only [GV_bind_def, GV_pure_def, GV_bind_eval, pureCore_app, pr_app,
    tan, tcn, tln, tlln, tdn, tpn, en, ebt, ebf, e0, hx, hdm,
    if_true, if_false, Bool.not_true, Bool.not_false, Bool.true_and,
    Bool.and_true, Bool.false_and, Bool.and_false,
    Bool.false_eq_true, Bool.true_eq_false]

/-- List-valued series and jurisdiction serialize as comma-joined strings
of their elements. -/
theorem c6lists (o : Oracle) (ss js : List PyVal) (url : String) (t : Trace) :
    qSeriesJur o (.list ss) (.list js) url t
      = (.ok (url ++ "series=" ++ joinPy ss ++ "&jurisdiction=" ++ joinPy js), t) := by
  unfold qSeriesJur
  simp only [GV_bind_def, GV_pure_def, GV_bind_eval, pureCore_app]

/-- The document-level/summary toggle is a path substitution
(`/summary` → `/documents`), not a query parameter. -/
theorem c6summary (url : String) (t : Trace) :
    qToggles
      { series := .none, jurisdiction := .none, year := .none,
        summary := .bool false } .none url t
      = (.ok (pyReplace url "/summary" "/documents"
          ++ "&documenttype=" ++ (PyVal.int 1).toStr), t) := by
  have en : (PyVal.none).truthy = false := rfl
  have ebf : (PyVal.bool false).truthy = false := rfl
  have e0 : (PyVal.int 0).truthy = false := rfl
  have e1 : (PyVal.int 1).truthy = true := rfl
  unfold qToggles
  simp only [GV_bind_def, GV_pure_def, GV_bind_eval, pureCore_app, pr_app,
    en, ebf, e0, e1, if_true, if_false, Bool.not_true, Bool.not_false,
    Bool.true_and, Bool.and_true, Bool.false_and, Bool.and_false,
    Bool.false_eq_true, Bool.true_eq_false]

/-- Truthy `country` and `version` only print deprecation warnings; they
contribute nothing to the query string. -/
theorem c6noops (url : String) (t : Trace) :
    qToggles
      { series := .none, jurisdiction := .none, year := .none,
        country := .bool true, version := .int 2 } .none url t
      = (.ok (url ++ "&documenttype=" ++ (PyVal.int 1).toStr),
         { t with prints := t.prints
            ++ ["WARNING: country is deprecated",
                "WARNING: version is temporarily deprecated"] }) := by
  have en : (PyVal.none).truthy = false := rfl
  have ebt : (PyVal.bool true).truthy = true := rfl
  have e0 : (PyVal.int 0).truthy = false := rfl
  have e1 : (PyVal.int 1).truthy = true := rfl
  have e2 : (PyVal.int 2).truthy = true := rfl
  unfold qToggles
  simp only [GV_bind_def, GV_pure_def, GV_bind_eval, pureCore_app, pr_app,
    en, ebt, e0, e1, e2, if_true, if_false, Bool.not_true, Bool.not_false,
    Bool.true_and, Bool.and_true, Bool.false_and, Bool.and_false,
    Bool.false_eq_true, Bool.true_eq_false, List.append_assoc,
    List.cons_append, List.nil_append]

/-- C6 (amended): the query string is built deterministically in the strict
source order series, jurisdiction, agency, cluster, label (then
labelLevel), year, the unfiltered-industry toggle (`filteredOnly=false`),
documenttype, page — each parameter independently optional and lists
comma-joined — but the document-level/summary toggle is a path
substitution rather than a query parameter, and truthy `country` and
`version` never reach the query string (they only print deprecation
warnings). -/
theorem claim_C6 :
    (∀ (o : Oracle) (url : String) (t : Trace) (sn jn an cn ln lln yn dn pn : ℤ),
      an ≠ 0 → cn ≠ 0 → ln ≠ 0 → lln ≠ 0 → dn ≠ 0 → pn ≠ 0 →
      date_format_match (PyVal.int yn).toStr = true →
      (qSeriesJur o (.int sn) (.int jn) url >>= fun u1 =>
       qFilters o
         { series := .int sn, jurisdiction := .int jn, year := .int yn,
           agency := .int an, cluster := .int cn, label := .int ln,
           labellevel := .int lln, labelsource := .str "X",
           filtered := .bool false, documentType := .int dn,
           page := .int pn } u1 >>= fun r2 =>
       qYear
         { series := .int sn, jurisdiction := .int jn, year := .int yn,
           agency := .int an, cluster := .int cn, label := .int ln,
           labellevel := .int lln, labelsource := .str "X",
           filtered := .bool false, documentType := .int dn,
           page := .int pn } r2.1 >>= fun u3 =>
       qToggles
         { series := .int sn, jurisdiction := .int jn, year := .int yn,
           agency := .int an, cluster := .int cn, label := .int ln,
           labellevel := .int lln, labelsource := .str "X",
           filtered := .bool false, documentType := .int dn,
           page := .int pn } r2.2 u3) t
        = (.ok (url ++ "series=" ++ (PyVal.int sn).toStr
            ++ "&jurisdiction=" ++ (PyVal.int jn).toStr
            ++ "&agency=" ++ (PyVal.int an).toStr
            ++ "&cluster=" ++ (PyVal.int cn).toStr
            ++ "&label=" ++ (PyVal.int ln).toStr
            ++ "&labelLevel=" ++ (PyVal.int lln).toStr
            ++ "&year=" ++ (PyVal.int yn).toStr
            ++ "&filteredOnly=false"
            ++ "&documenttype=" ++ (PyVal.int dn).toStr
            ++ "&page=" ++ (PyVal.int pn).toStr),
           { t with prints := t.prints
              ++ ["WARNING: Returning unfiltered industry results. "
                  ++ "Use of these results is NOT recommended."] }))
  ∧ (∀ (o : Oracle) (ss js : List PyVal) (url : String) (t : Trace),
      qSeriesJur o (.list ss) (.list js) url t
        = (.ok (url ++ "series=" ++ joinPy ss
            ++ "&jurisdiction=" ++ joinPy js), t))
  ∧ (∀ (url : String) (t : Trace),
      qToggles
        { series := .none, jurisdiction := .none, year := .none,
          summary := .bool false } .none url t
        = (.ok (pyReplace url "/summary" "/documents"
            ++ "&documenttype=" ++ (PyVal.int 1).toStr), t))
  ∧ (∀ (url : String) (t : Trace),
      qToggles
        { series := .none, jurisdiction := .none, year := .none,
          country := .bool true, version := .int 2 } .none url t
        = (.ok (url ++ "&documenttype=" ++ (PyVal.int 1).toStr),
           { t with prints := t.prints
              ++ ["WARNING: country is deprecated",
                  "WARNING: version is temporarily deprecated"] })) :=
  ⟨fun o url t sn jn an cn ln lln yn dn pn han hcn hln hlln hdn hpn hdm =>
     c6order o url t sn jn an cn ln lln yn dn pn han hcn hln hlln hdn hpn hdm,
   fun o ss js url t => c6lists o ss js url t,
   fun url t => c6summary url t,
   fun url t => c6noops url t⟩

/-- C6 counterexample to the claim as stated: truthy `country` and
`version` leave the issued request URLs unchanged — no country flag or
version parameter follows the document type. -/
theorem claim_C6_counterexample :
    (get_values_run c5scen 1
      { series := .int 1, jurisdiction := .int 38, year := .int 2020,
        country := .bool true, version := .int 2 }).requests
      = (get_values_run c5scen 1
          { series := .int 1, jurisdiction := .int 38, year := .int 2020 }).requests
  ∧ (get_values_run c5scen 1
      { series := .int 1, jurisdiction := .int 38, year := .int 2020,
        country := .bool true, version := .int 2 }).prints
      = ["WARNING: country is deprecated",
         "WARNING: version is temporarily deprecated"] := by
  constructor
  · decide
  · decide

/-- C6 at concrete inputs: every filter present, parameters in order. -/
theorem claim_C6_witness :
    (qSeriesJur c5scen (.int 7) (.int 38) "u?" >>= fun u1 =>
     qFilters c5scen
       { series := .int 7, jurisdiction := .int 38, year := .int 2020,
         agency := .int 4, cluster := .int 5, label := .int 6,
         labellevel := .int 3, labelsource := .str "X",
         filtered := .bool false, documentType := .int 1,
         page := .int 2 } u1 >>= fun r2 =>
     qYear
       { series := .int 7, jurisdiction := .int 38, year := .int 2020,
         agency := .int 4, cluster := .int 5, label := .int 6,
         labellevel := .int 3, labelsource := .str "X",
         filtered := .bool false, documentType := .int 1,
         page := .int 2 } r2.1 >>= fun u3 =>
     qToggles
       { series := .int 7, jurisdiction := .int 38, year := .int 2020,
         agency := .int 4, cluster := .int 5, label := .int 6,
         labellevel := .int 3, labelsource := .str "X",
         filtered := .bool false, documentType := .int 1,
         page := .int 2 } r2.2 u3) ⟨[], [], [], []⟩
      = (.ok ("u?" ++ "series=" ++ (PyVal.int 7).toStr
          ++ "&jurisdiction=" ++ (PyVal.int 38).toStr
          ++ "&agency=" ++ (PyVal.int 4).toStr
          ++ "&cluster=" ++ (PyVal.int 5).toStr
          ++ "&label=" ++ (PyVal.int 6).toStr
          ++ "&labelLevel=" ++ (PyVal.int 3).toStr
          ++ "&year=" ++ (PyVal.int 2020).toStr
          ++ "&filteredOnly=false"
          ++ "&documenttype=" ++ (PyVal.int 1).toStr
          ++ "&page=" ++ (PyVal.int 2).toStr),
         { prints := ["WARNING: Returning unfiltered industry results. "
              ++ "Use of these results is NOT recommended."],
           requests := [], files := [], memo := [] }) := by
  have h := claim_C6.1 c5scen "u?" ⟨[], [], [], []⟩ 7 38 4 5 6 3 2020 1 2
    (by decide) (by decide) (by decide) (by decide) (by decide) (by decide) rfl
  simpa using h

/-- A network whose values endpoint returns an error envelope carrying a
`message` field. -/
def c7scenM : Oracle := { c5scen with values := fun _ => .envelope [("message", "boom")] }

/-- An envelope with only an `errorMessage` field. -/
def c7scenE : Oracle := { c5scen with values := fun _ => .envelope [("errorMessage", "bad")] }

/-- An envelope with neither message field. -/
def c7scenN : Oracle := { c5scen with values := fun _ => .envelope [("other", "x")] }

/-- An envelope with a `message` field is reported as `ERROR: <message>`
and the call returns nothing. -/
theorem c7msg (o : Oracle) (u : String) (t : Trace)
    (fields : List (String × String)) (em : String × String)
    (hv : o.values u = .envelope fields)
    (hm : fields.find? (fun e => e.1 == "message") = some em) :
    fetchParse o u t
      = (.error (.ret Option.none),
         { t with prints := t.prints ++ ["ERROR: " ++ em.2],
                  requests := t.requests ++ [u] }) := by
  unfold fetchParse print_error
  simp only [GV_bind_def, GV_pure_def, GV_bind_eval, pureCore_app,
    rawFetch_app, pr_app, throwOut_app]
  rw [hv]
  simp only [GV_bind_def, GV_pure_def, GV_bind_eval, pureCore_app,
    rawFetch_app, pr_app, throwOut_app]
  rw [hm]
  simp only [GV_bind_def, GV_pure_def, GV_bind_eval, pureCore_app,
    rawFetch_app, pr_app, throwOut_app]

/-- An envelope without `message` but with `errorMessage` is reported as
`ERROR <errorMessage>` and the call returns nothing. -/
theorem c7emsg (o : Oracle) (u : String) (t : Trace)
    (fields : List (String × String)) (ee : String × String)
    (hv : o.values u = .envelope fields)
    (hm : fields.find? (fun e => e.1 == "message") = Option.none)
    (he : fields.find? (fun e => e.1 == "errorMessage") = some ee) :
    fetchParse o u t
      = (.error (.ret Option.none),
         { t with prints := t.prints ++ ["ERROR " ++ ee.2],
                  requests := t.requests ++ [u] }) := by
  unfold fetchParse print_error
  simp only [GV_bind_def, GV_pure_def, GV_bind_eval, pureCore_app,
    rawFetch_app, pr_app, throwOut_app]
  rw [hv]
  simp only [GV_bind_def, GV_pure_def, GV_bind_eval, pureCore_app,
    rawFetch_app, pr_app, throwOut_app]
  rw [hm, he]
  simp only [GV_bind_def, GV_pure_def, GV_bind_eval, pureCore_app,
    rawFetch_app, pr_app, throwOut_app]

/-- C7 (amended): a payload that does not parse into rows (an error
envelope) is reported through the embedded `message` field — or
`errorMessage` when `message` is absent — and the call returns nothing;
but when the envelope carries neither field, the reporting helper itself
raises a KeyError that escapes to the caller. -/
theorem claim_C7 :
    (∀ (o : Oracle) (u : String) (t : Trace)
        (fields : List (String × String)) (em : String × String),
      o.values u = .envelope fields →
      fields.find? (fun e => e.1 == "message") = some em →
      fetchParse o u t
        = (.error (.ret Option.none),
           { t with prints := t.prints ++ ["ERROR: " ++ em.2],
                    requests := t.requests ++ [u] }))
  ∧ (∀ (o : Oracle) (u : String) (t : Trace)
        (fields : List (String × String)) (ee : String × String),
      o.values u = .envelope fields →
      fields.find? (fun e => e.1 == "message") = Option.none →
      fields.find? (fun e => e.1 == "errorMessage") = some ee →
      fetchParse o u t
        = (.error (.ret Option.none),
           { t with prints := t.prints ++ ["ERROR " ++ ee.2],
                    requests := t.requests ++ [u] }))
  ∧ (get_values_run c7scenM 1
      { series := .int 1, jurisdiction := .int 38, year := .int 2020 }
      = { prints := ["ERROR: boom"],
          requests := ["https://api.quantgov.org/datafinder?jurisdiction=38&documenttype=1",
            "https://api.quantgov.org/state-summary?series=1&jurisdiction=38&labelLevel=3&year=2020&documenttype=1"],
          files := [], outcome := .ret Option.none })
  ∧ (get_values_run c7scenE 1
      { series := .int 1, jurisdiction := .int 38, year := .int 2020 }
      = { prints := ["ERROR bad"],
          requests := ["https://api.quantgov.org/datafinder?jurisdiction=38&documenttype=1",
            "https://api.quantgov.org/state-summary?series=1&jurisdiction=38&labelLevel=3&year=2020&documenttype=1"],
          files := [], outcome := .ret Option.none }) :=
  ⟨fun o u t fields em hv hm => c7msg o u t fields em hv hm,
   fun o u t fields ee hv hm he => c7emsg o u t fields ee hv hm he,
   by decide, by decide⟩

/-- C7 counterexample to the claim as stated: an envelope with neither
`message` nor `errorMessage` makes the call throw KeyError rather than
return nothing. -/
theorem claim_C7_counterexample :
    (get_values_run c7scenN 1
      { series := .int 1, jurisdiction := .int 38, year := .int 2020 }).outcome
      = .raise (.keyError "errorMessage") := by
  decide

/-- C7 at concrete envelopes: `message` and `errorMessage` reports. -/
theorem claim_C7_witness :
    fetchParse c7scenM "u" ⟨[], [], [], []⟩
      = (.error (.ret Option.none),
         { prints := ["ERROR: " ++ ("boom" : String)], requests := ["u"],
           files := [], memo := [] })
  ∧ fetchParse c7scenE "u" ⟨[], [], [], []⟩
      = (.error (.ret Option.none),
         { prints := ["ERROR " ++ ("bad" : String)], requests := ["u"],
           files := [], memo := [] }) := by
  constructor
  · have h := claim_C7.1 c7scenM "u" ⟨[], [], [], []⟩ [("message", "boom")]
      ("message", "boom") rfl rfl
    simpa using h
  · have h := claim_C7.2.1 c7scenE "u" ⟨[], [], [], []⟩ [("errorMessage", "bad")]
      ("errorMessage", "bad") rfl rfl rfl
    simpa using h

/-- A string containing an alphabetic character is nonempty, hence truthy. -/
theorem truthy_of_hasAlpha (s : String) (ha : hasAlpha s = true) :
    (PyVal.str s).truthy = true := by
  have hne : s ≠ "" := by
    intro h
    subst h
    exact absurd ha (by decide)
  simp [PyVal.truthy, hne]

/-- A jurisdiction name absent from the jurisdiction dictionary makes the
call raise an uncaught KeyError after the single jurisdictions fetch,
printing nothing. -/
theorem c8jur (o : Oracle) (f : ℕ) (sv yv : PyVal) (s : String)
    (ha : hasAlpha s = true)
    (hj : (list_jurisdictions_dict o.jurisdictions).find?
        (fun e => e.1 == s) = Option.none) :
    get_values_run o f { series := sv, jurisdiction := .str s, year := yv }
      = { prints := [], requests := [jurisdictions_url], files := [],
          outcome := .raise (.keyError s) } := by
  have ht := truthy_of_hasAlpha s ha
  have en : (PyVal.none).truthy = false := rfl
  unfold get_values_run get_values resolveJurisdiction list_jurisdictions
    dictLookup
  simp only [GV_bind_def, GV_pure_def, GV_bind_eval, pureCore_app, pr_app,
    rawFetch_app, memoCheck_app, memoMark_app, throwOut_app, ht, ha, en,
    PyVal.toStr, Bool.and_self, if_true, if_false, Bool.true_and,
    Bool.false_eq_true, Bool.true_eq_false, List.contains_nil,
    List.nil_append]
  rw [hj]
  simp only [GV_bind_def, GV_pure_def, GV_bind_eval, pureCore_app,
    throwOut_app]

/-- A label absent from the NAICS label dictionary makes the filter stage
raise an uncaught KeyError after the labels fetch. -/
theorem c8label (o : Oracle) (url : String) (t : Trace) (s : String)
    (ha : hasAlpha s = true)
    (hm : t.memo.contains (industries_url .none (.int 3) (.str "NAICS")) = false)
    (hl : (pySortedDict (o.labels (industries_url .none (.int 3) (.str "NAICS")))).find?
        (fun e => e.1 == s) = Option.none) :
    qFilters o
        { series := .none, jurisdiction := .none, year := .none,
          label := .str s } url t
      = (.error (.raise (.keyError s)),
         { t with
            requests := t.requests ++ [industries_url .none (.int 3) (.str "NAICS")],
            memo := t.memo ++ [industries_url .none (.int 3) (.str "NAICS")] }) := by
  have ht := truthy_of_hasAlpha s ha
  have en : (PyVal.none).truthy = false := rfl
  have hnaics : (PyVal.str "NAICS").pyEq (.str "NAICS") = true := rfl
  unfold qFilters list_industries_onlyID
  simp only [GV_bind_def, GV_pure_def, GV_bind_eval, pureCore_app, pr_app,
    rawFetch_app, memoCheck_app, memoMark_app, throwOut_app, ht, en, hnaics,
    hm, PyVal.toStr, if_true, if_false, Bool.false_eq_true, Bool.true_eq_false]
  rw [hl]
  simp only [GV_bind_def, GV_pure_def, GV_bind_eval, pureCore_app,
    throwOut_app]

/-- C8 (amended): a jurisdiction or industry/label name absent from the
corresponding lookup map is NOT surfaced as a "no match" report — the
lookup's KeyError escapes uncaught and crashes the call (for a scalar
name, a list whose first element is a name, and a label alike). -/
theorem claim_C8 :
    (∀ (o : Oracle) (f : ℕ) (sv yv : PyVal) (s : String),
      hasAlpha s = true →
      (list_jurisdictions_dict o.jurisdictions).find?
          (fun e => e.1 == s) = Option.none →
      get_values_run o f { series := sv, jurisdiction := .str s, year := yv }
        = { prints := [], requests := [jurisdictions_url], files := [],
            outcome := .raise (.keyError s) })
  ∧ (∀ (o : Oracle) (url : String) (t : Trace) (s : String),
      hasAlpha s = true →
      t.memo.contains (industries_url .none (.int 3) (.str "NAICS")) = false →
      (pySortedDict (o.labels (industries_url .none (.int 3) (.str "NAICS")))).find?
          (fun e => e.1 == s) = Option.none →
      qFilters o
          { series := .none, jurisdiction := .none, year := .none,
            label := .str s } url t
        = (.error (.raise (.keyError s)),
           { t with
              requests := t.requests ++ [industries_url .none (.int 3) (.str "NAICS")],
              memo := t.memo ++ [industries_url .none (.int 3) (.str "NAICS")] }))
  ∧ ((get_values_run c5scen 1
      { series := .int 1, jurisdiction := .list [.str "Atlantis"],
        year := .int 2020 }).outcome = .raise (.keyError "Atlantis"))
  ∧ ((get_values_run c5scen 1
      { series := .int 1, jurisdiction := .int 38, year := .int 2020,
        label := .str "99" }).outcome = .raise (.keyError "99")) :=
  ⟨fun o f sv yv s ha hj => c8jur o f sv yv s ha hj,
   fun o url t s ha hm hl => c8label o url t s ha hm hl,
   by decide, by decide⟩

/-- C8 counterexample to the claim as stated: an unknown jurisdiction name
crashes the call with KeyError and prints no report at all. -/
theorem claim_C8_counterexample :
    get_values_run c5scen 1
      { series := .int 1, jurisdiction := .str "Atlantis", year := .int 2020 }
      = { prints := [], requests := [jurisdictions_url], files := [],
          outcome := .raise (.keyError "Atlantis") } := by
  decide

/-- C8 at concrete names: an unknown jurisdiction and an unknown label both
raise KeyError. -/
theorem claim_C8_witness :
    get_values_run c5scen 1
      { series := .int 7, jurisdiction := .str "Wakanda", year := .int 2020 }
      = { prints := [], requests := [jurisdictions_url], files := [],
          outcome := .raise (.keyError "Wakanda") }
  ∧ qFilters c5scen
      { series := .none, jurisdiction := .none, year := .none,
        label := .str "XX" } "u?" ⟨[], [], [], []⟩
      = (.error (.raise (.keyError "XX")),
         { prints := [], files := [],
           requests := [] ++ [industries_url .none (.int 3) (.str "NAICS")],
           memo := [] ++ [industries_url .none (.int 3) (.str "NAICS")] }) :=
  ⟨claim_C8.1 c5scen 1 (.int 7) (.int 2020) "Wakanda" (by decide) (by decide),
   claim_C8.2.1 c5scen "u?" ⟨[], [], [], []⟩ "XX" (by decide) rfl rfl⟩

/-- Two successive `list_jurisdictions` calls in one process: one request,
one memo entry, and both calls return the same sorted dictionary. -/
theorem list_jurisdictions_twice (o : Oracle) (t : Trace)
    (hm : t.memo.contains jurisdictions_url = false) :
    (list_jurisdictions o >>= fun d1 =>
     list_jurisdictions o >>= fun d2 => pure (d1, d2)) t
      = (.ok (list_jurisdictions_dict o.jurisdictions,
              list_jurisdictions_dict o.jurisdictions),
         { t with requests := t.requests ++ [jurisdictions_url],
                  memo := t.memo ++ [jurisdictions_url] }) := by
  have hm2 : (t.memo ++ [jurisdictions_url]).contains jurisdictions_url = true := by
    simp [List.contains_eq_any_beq, List.any_append]
  unfold list_jurisdictions
  simp only [GV_bind_def, GV_pure_def, GV_bind_eval, pureCore_app,
    rawFetch_app, memoCheck_app, memoMark_app, hm, hm2, if_true, if_false,
    Bool.false_eq_true, Bool.true_eq_false]

/-- C9: a second `Memoized` call with identical hashable arguments returns
the first call's value from the cache without re-invoking the wrapped
function; two successive `list_jurisdictions` calls issue one request and
return the identical mapping; and the returned dictionary is sorted
ascending by key — the name with `reverse` unset, the numeric identifier
(then the key) with `reverse` set. -/
theorem claim_C9 :
    (∀ {α β : Type} (m : Memoized α β) (key : α → String × String)
        (argsHashable : α → Bool) (a : α),
      argsHashable a = true →
      (m.call key argsHashable a).2.1.call key argsHashable a
        = ((m.call key argsHashable a).1, (m.call key argsHashable a).2.1, false))
  ∧ (∀ (o : Oracle) (t : Trace),
      t.memo.contains jurisdictions_url = false →
      (list_jurisdictions o >>= fun d1 =>
       list_jurisdictions o >>= fun d2 => pure (d1, d2)) t
        = (.ok (list_jurisdictions_dict o.jurisdictions,
                list_jurisdictions_dict o.jurisdictions),
           { t with requests := t.requests ++ [jurisdictions_url],
                    memo := t.memo ++ [jurisdictions_url] }))
  ∧ (∀ (content : List (String × ℤ)),
      List.Pairwise (fun a b : String × ℤ => a.1 ≤ b.1)
        (list_jurisdictions_dict content))
  ∧ (∀ (content : List (String × ℤ)),
      List.Pairwise (fun a b : ℤ × String => a.1 ≤ b.1)
        (list_jurisdictions_reverse_dict content)) :=
  ⟨fun m key argsHashable a hh => Memoized_second_call m key argsHashable a hh,
   fun o t hm => list_jurisdictions_twice o t hm,
   fun content => pySortedDict_sorted content,
   fun _ => pySortedDict_sorted _⟩

/-- C9 at a concrete cache and a concrete network. -/
theorem claim_C9_witness :
    ((Memoized.call ⟨fun n : ℕ => (n : ℤ), []⟩ (fun n => (pyStr n, ""))
        (fun _ => true) 3).2.1.call (fun n => (pyStr n, ""))
        (fun _ => true) 3
      = ((Memoized.call ⟨fun n : ℕ => (n : ℤ), []⟩ (fun n => (pyStr n, ""))
          (fun _ => true) 3).1,
         (Memoized.call ⟨fun n : ℕ => (n : ℤ), []⟩ (fun n => (pyStr n, ""))
          (fun _ => true) 3).2.1, false))
  ∧ ((list_jurisdictions c5scen >>= fun d1 =>
      list_jurisdictions c5scen >>= fun d2 => pure (d1, d2)) ⟨[], [], [], []⟩
      = (.ok (list_jurisdictions_dict c5scen.jurisdictions,
              list_jurisdictions_dict c5scen.jurisdictions),
         { prints := [], requests := [] ++ [jurisdictions_url], files := [],
           memo := [] ++ [jurisdictions_url] })) :=
  ⟨claim_C9.1 ⟨fun n : ℕ => (n : ℤ), []⟩ (fun n => (pyStr n, ""))
     (fun _ => true) 3 rfl,
   claim_C9.2.1 c5scen ⟨[], [], [], []⟩ rfl⟩
